import Mathlib

/-!
Shallow embedding of the CToRustTool C front end (src/lexer.rs, src/ast.rs,
src/parser.rs) and proofs about the spec's claims.

Modelling conventions:
- Rust `i32` values are `Int`; `std::parse::<i32>` is modelled by `parse_i32`,
  which returns `none` exactly when the Rust call would return `Err` (and so
  `parse().unwrap()` would panic).  A lexer panic is surfaced as `none`.
- Rust `f64` payloads are kept as the literal's source text (`String`): no
  claim depends on float decoding, and IEEE semantics are out of scope.
- Rust `char::is_whitespace` is the Unicode White_Space property, a set of
  exactly 25 code points; it is modelled exactly by `rust_is_whitespace`.
  Rust `char::is_numeric / is_alphabetic / is_alphanumeric` are modelled by
  `Char.isDigit / isAlpha / isAlphanum`, which agree with the Rust
  predicates on every ASCII character (below 128: the numeric characters
  are 0-9 and the alphabetic ones are the Latin letters) but not on Unicode
  digits or letters beyond ASCII; the one theorem below that quantifies
  over characters therefore restricts itself to ASCII characters, and
  every concrete input below is ASCII.
- `HashSet<String>` is modelled as a `List String` with membership-guarded
  insertion (`insert_name`), which captures exactly the contains/insert
  behaviour the parser uses.
- The parser's `&mut self` methods returning `Result<T, String>` become
  `PM T = PState → Option (Except String T × PState)`: the final state is
  returned on the error path too, mirroring in-place mutation, and `none`
  marks recursion-fuel exhaustion (the Rust code has no fuel; every concrete
  run below is shown to terminate by producing a `some`).
- Rust `Debug` formatting of tokens (used in error strings) is `reprToken`;
  for payload-free tokens and plain identifier payloads it matches
  `format!("{:?}", tok)` exactly, which is all the claims rely on.
- `parser.rs` references `Token::Ellipsis`, which `lexer.rs` never defines
  nor produces; the constructor is included so that `parse_declarator_suffix`
  can be translated faithfully, and it is dead for lexed input.
-/

namespace CTR

/-- Token: the lexer's token type (src/lexer.rs, enum Token). -/
inductive Token where
  | Int | Char | Float | Double | Void | Long | Short | Unsigned | Signed
  | Struct | Union | Enum | Typedef | Const | Volatile | Static | Extern
  | Auto | Register
  | If | Else | While | Do | For | Switch | Case | Default | Break
  | Continue | Return | Goto
  | Sizeof
  | Include (s : String) | Define (n v : String) | Ifdef | Ifndef | Endif
  | Identifier (s : String)
  | IntLiteral (n : Int)
  | FloatLiteral (raw : String)
  | CharLiteral (c : Char)
  | StringLiteral (s : String)
  | Plus | Minus | Star | Slash | Percent
  | BitAnd | BitOr | BitXor | BitNot | LeftShift | RightShift
  | Assign | PlusAssign | MinusAssign | StarAssign | SlashAssign
  | PercentAssign | AndAssign | OrAssign | XorAssign | LeftShiftAssign
  | RightShiftAssign
  | Eq | Ne | Lt | Gt | Le | Ge
  | And | Or | Not
  | Ampersand | Increment | Decrement | Arrow | Dot | Question | Colon
  | LParen | RParen | LBrace | RBrace | LBracket | RBracket
  | Semicolon | Comma
  | Eof
  | Ellipsis
deriving BEq

/-- CType: the AST's recursive type representation (src/ast.rs, enum CType). -/
inductive CType where
  | Int | Char | Float | Double | Void | Long | Short
  | UnsignedInt | UnsignedChar | UnsignedLong | UnsignedShort
  | SignedInt | SignedChar
  | Pointer (inner : CType)
  | Array (element_type : CType) (size : Option Nat)
  | Function (return_type : CType) (params : List CType)
  | Struct (name : String)
  | Union (name : String)
  | Enum (name : String)
  | Typedef (name : String)
  | Const (inner : CType)
  | Volatile (inner : CType)

/-- BinaryOp (src/ast.rs).  The compound-assign constructors exist in the
Rust enum but are never produced by the parser; they are kept for fidelity. -/
inductive BinaryOp where
  | Add | Sub | Mul | Div | Mod
  | Lt | Gt | Le | Ge | Eq | Ne
  | And | Or
  | BitAnd | BitOr | BitXor | LeftShift | RightShift
  | AddAssign | SubAssign | MulAssign | DivAssign | ModAssign
  | AndAssign | OrAssign | XorAssign | LeftShiftAssign | RightShiftAssign
deriving BEq

/-- UnaryOp (src/ast.rs). -/
inductive UnaryOp where
  | Neg | Not | BitNot | Deref | AddressOf
  | PreIncrement | PreDecrement | PostIncrement | PostDecrement
deriving BEq

/-- Expr (src/ast.rs).  Float literals carry the raw text, see the header. -/
inductive Expr where
  | IntLiteral (n : Int)
  | FloatLiteral (raw : String)
  | CharLiteral (c : Char)
  | StringLiteral (s : String)
  | Identifier (s : String)
  | Binary (op : BinaryOp) (left right : Expr)
  | Unary (op : UnaryOp) (operand : Expr)
  | Call (func : String) (args : List Expr)
  | Assignment (target value : Expr)
  | Cast (typ : CType) (expr : Expr)
  | ArrayAccess (array index : Expr)
  | MemberAccess (object : Expr) (member : String)
  | PointerMemberAccess (object : Expr) (member : String)
  | Ternary (cond then_expr else_expr : Expr)
  | SizeOf (typ : CType)
  | Null

/-- Stmt (src/ast.rs). -/
inductive Stmt where
  | VarDecl (typ : CType) (name : String) (init : Option Expr)
  | Return (e : Option Expr)
  | Expr (e : Expr)
  | If (cond : Expr) (then_block : List Stmt) (else_block : Option (List Stmt))
  | While (cond : Expr) (body : List Stmt)
  | DoWhile (body : List Stmt) (cond : Expr)
  | For (init : Option Stmt) (cond : Option Expr) (update : Option Expr)
        (body : List Stmt)
  | Break | Continue
  | Goto (label : String)
  | Label (name : String)
  | Block (stmts : List Stmt)
  | Empty

/-- Param (src/ast.rs). -/
structure Param where
  typ : CType
  name : String

/-- Function declaration payload (src/ast.rs, struct Function). -/
structure Function where
  return_type : CType
  name : String
  params : List Param
  body : List Stmt

/-- StructField (src/ast.rs). -/
structure StructField where
  typ : CType
  name : String

/-- StructDef (src/ast.rs). -/
structure StructDef where
  name : String
  fields : List StructField

/-- UnionDef (src/ast.rs). -/
structure UnionDef where
  name : String
  fields : List StructField

/-- EnumVariant (src/ast.rs). -/
structure EnumVariant where
  name : String
  value : Option Int

/-- EnumDef (src/ast.rs). -/
structure EnumDef where
  name : String
  variants : List EnumVariant

/-- TypedefDef (src/ast.rs). -/
structure TypedefDef where
  name : String
  target_type : CType

/-- Declaration (src/ast.rs). -/
inductive Declaration where
  | Function (f : Function)
  | Struct (d : StructDef)
  | Union (d : UnionDef)
  | Enum (d : EnumDef)
  | Typedef (d : TypedefDef)
  | GlobalVar (typ : CType) (name : String) (init : Option Expr)
  | Include (s : String)
  | Define (name value : String)

/-- Program (src/ast.rs). -/
structure Program where
  declarations : List Declaration

/-! Character constants used instead of delimiter-heavy literals. -/

/-- Character constant: double quote. -/
def dquote : Char := Char.ofNat 34

/-- Character constant: single quote. -/
def squote : Char := Char.ofNat 39

/-- Character constant: backslash. -/
def bslash : Char := Char.ofNat 92

/-- Character constant: newline. -/
def nl : Char := Char.ofNat 10

/-- Character constant: horizontal tab. -/
def tab : Char := Char.ofNat 9

/-- Character constant: NUL, the Rust literal given to unwrap_or in read_char. -/
def nulChar : Char := Char.ofNat 0

/-- Character constant: opening brace. -/
def lbraceChar : Char := Char.ofNat 123

/-- Character constant: closing brace. -/
def rbraceChar : Char := Char.ofNat 125

/-! The lexer (src/lexer.rs).  `Lexer { input, pos }` walking forward over
`input` is modelled by functions consuming the suffix of the character list
that starts at `pos`; `advance` is taking the tail. -/

/-- Exact model of Rust char::is_whitespace: the Unicode White_Space
property, which is U+0009..U+000D, U+0020, U+0085, U+00A0, U+1680,
U+2000..U+200A, U+2028, U+2029, U+202F, U+205F and U+3000. -/
def rust_is_whitespace (c : Char) : Bool :=
  decide ((9 ≤ c.toNat ∧ c.toNat ≤ 13) ∨ c.toNat = 32 ∨ c.toNat = 133
    ∨ c.toNat = 160 ∨ c.toNat = 5760 ∨ (8192 ≤ c.toNat ∧ c.toNat ≤ 8202)
    ∨ c.toNat = 8232 ∨ c.toNat = 8233 ∨ c.toNat = 8239 ∨ c.toNat = 8287
    ∨ c.toNat = 12288)

/-- skip_whitespace (src/lexer.rs): drop leading whitespace characters. -/
def skip_whitespace : List Char → List Char
  | [] => []
  | c :: rest => if rust_is_whitespace c then skip_whitespace rest else c :: rest

/-- Decimal-accumulation loop over the digit characters. -/
def dec_val_list : List Char → Nat → Nat
  | [], acc => acc
  | c :: rest, acc => dec_val_list rest (acc * 10 + (c.toNat - 48))

/-- Decimal value of a digit string. -/
def dec_val (s : String) : Nat :=
  dec_val_list s.data 0

/-- Model of str::parse::<i32> on the digit-only strings read_number builds:
succeeds exactly when the string is a nonempty run of digits whose value fits
in i32; `none` is the Err case on which unwrap panics. -/
def parse_i32 (s : String) : Option Int :=
  if s.length ≠ 0 ∧ s.data.all Char.isDigit ∧ dec_val s ≤ 2147483647 then
    some (dec_val s)
  else none

/-- Digit/point collection loop of read_number (src/lexer.rs): returns the
collected literal text, the is_float flag, and the remaining input. -/
def read_number_aux : List Char → Bool → String → String × Bool × List Char
  | [], is_float, acc => (acc, is_float, [])
  | c :: rest, is_float, acc =>
    if c.isDigit then read_number_aux rest is_float (acc.push c)
    else if c = '.' ∧ ¬is_float then read_number_aux rest true (acc.push c)
    else (acc, is_float, c :: rest)

/-- read_number (src/lexer.rs).  The float branch keeps the raw text (the
f64 parse cannot fail on these strings); the int branch panics (`none`) when
parse::<i32> fails, i.e. when the digit run exceeds i32::MAX. -/
def read_number (cs : List Char) : Option (Token × List Char) :=
  match read_number_aux cs false "" with
  | (num_str, is_float, rest) =>
    if is_float then some (Token.FloatLiteral num_str, rest)
    else match parse_i32 num_str with
      | some n => some (Token.IntLiteral n, rest)
      | none => none

/-- Identifier-run collection loop of read_identifier (src/lexer.rs). -/
def read_ident_aux : List Char → String → String × List Char
  | [], acc => (acc, [])
  | c :: rest, acc =>
    if c.isAlphanum ∨ c = '_' then read_ident_aux rest (acc.push c)
    else (acc, c :: rest)

/-- Keyword table of read_identifier (src/lexer.rs). -/
def keyword_token : String → Token
  | "int" => Token.Int
  | "char" => Token.Char
  | "float" => Token.Float
  | "double" => Token.Double
  | "void" => Token.Void
  | "long" => Token.Long
  | "short" => Token.Short
  | "unsigned" => Token.Unsigned
  | "signed" => Token.Signed
  | "struct" => Token.Struct
  | "union" => Token.Union
  | "enum" => Token.Enum
  | "typedef" => Token.Typedef
  | "const" => Token.Const
  | "volatile" => Token.Volatile
  | "static" => Token.Static
  | "extern" => Token.Extern
  | "auto" => Token.Auto
  | "register" => Token.Register
  | "if" => Token.If
  | "else" => Token.Else
  | "while" => Token.While
  | "do" => Token.Do
  | "for" => Token.For
  | "switch" => Token.Switch
  | "case" => Token.Case
  | "default" => Token.Default
  | "break" => Token.Break
  | "continue" => Token.Continue
  | "return" => Token.Return
  | "goto" => Token.Goto
  | "sizeof" => Token.Sizeof
  | s => Token.Identifier s

/-- read_identifier (src/lexer.rs). -/
def read_identifier (cs : List Char) : Token × List Char :=
  match read_ident_aux cs "" with
  | (ident, rest) => (keyword_token ident, rest)

/-- Body loop of read_string (src/lexer.rs), applied to the characters after
the opening quote.  A backslash at end of input drops the backslash and the
loop then terminates on the exhausted input, as in the Rust if-let. -/
def read_string_aux : List Char → String → Token × List Char
  | [], acc => (Token.StringLiteral acc, [])
  | c :: rest, acc =>
    if c = dquote then (Token.StringLiteral acc, rest)
    else if c = bslash then
      match rest with
      | [] => (Token.StringLiteral acc, [])
      | e :: rest2 =>
        let d := if e = 'n' then nl
                 else if e = 't' then tab
                 else if e = bslash then bslash
                 else if e = dquote then dquote
                 else e
        read_string_aux rest2 (acc.push d)
    else read_string_aux rest (acc.push c)

/-- read_string (src/lexer.rs), given the characters after the opening quote. -/
def read_string (cs : List Char) : Token × List Char :=
  read_string_aux cs ""

/-- read_char (src/lexer.rs), given the characters after the opening quote:
takes the next character raw (NUL when absent), then consumes a closing
quote if one is present.  No escape processing happens here. -/
def read_char (cs : List Char) : Token × List Char :=
  match cs with
  | [] => (Token.CharLiteral nulChar, [])
  | c :: rest =>
    match rest with
    | r :: rest2 =>
      if r = squote then (Token.CharLiteral c, rest2)
      else (Token.CharLiteral c, rest)
    | [] => (Token.CharLiteral c, [])

/-- next_token (src/lexer.rs): skip whitespace, then dispatch on the current
character; multi-character operators use single-character lookahead.  The
final catch-all arm mirrors the Rust `_ => { self.advance(); Token::Eof }`:
an unrecognized character is consumed and Eof is returned.  `none` is the
read_number panic.  The is_numeric and is_alphabetic guards are modelled by
isDigit and isAlpha, exact on ASCII (see the header): a statement about the
catch-all arm for an arbitrary character must therefore restrict the
character to ASCII. -/
def next_token (cs0 : List Char) : Option (Token × List Char) :=
  match skip_whitespace cs0 with
  | [] => some (Token.Eof, [])
  | c :: rest =>
    if c.isDigit then read_number (c :: rest)
    else if c.isAlpha ∨ c = '_' then some (read_identifier (c :: rest))
    else if c = '+' then
      match rest with
      | '+' :: r => some (Token.Increment, r)
      | '=' :: r => some (Token.PlusAssign, r)
      | _ => some (Token.Plus, rest)
    else if c = '-' then
      match rest with
      | '-' :: r => some (Token.Decrement, r)
      | '=' :: r => some (Token.MinusAssign, r)
      | '>' :: r => some (Token.Arrow, r)
      | _ => some (Token.Minus, rest)
    else if c = '*' then
      match rest with
      | '=' :: r => some (Token.StarAssign, r)
      | _ => some (Token.Star, rest)
    else if c = '/' then
      match rest with
      | '=' :: r => some (Token.SlashAssign, r)
      | _ => some (Token.Slash, rest)
    else if c = '%' then
      match rest with
      | '=' :: r => some (Token.PercentAssign, r)
      | _ => some (Token.Percent, rest)
    else if c = '(' then some (Token.LParen, rest)
    else if c = ')' then some (Token.RParen, rest)
    else if c = lbraceChar then some (Token.LBrace, rest)
    else if c = rbraceChar then some (Token.RBrace, rest)
    else if c = '[' then some (Token.LBracket, rest)
    else if c = ']' then some (Token.RBracket, rest)
    else if c = ';' then some (Token.Semicolon, rest)
    else if c = ',' then some (Token.Comma, rest)
    else if c = '.' then some (Token.Dot, rest)
    else if c = '?' then some (Token.Question, rest)
    else if c = ':' then some (Token.Colon, rest)
    else if c = '~' then some (Token.BitNot, rest)
    else if c = '&' then
      match rest with
      | '&' :: r => some (Token.And, r)
      | '=' :: r => some (Token.AndAssign, r)
      | _ => some (Token.Ampersand, rest)
    else if c = '|' then
      match rest with
      | '|' :: r => some (Token.Or, r)
      | '=' :: r => some (Token.OrAssign, r)
      | _ => some (Token.BitOr, rest)
    else if c = '^' then
      match rest with
      | '=' :: r => some (Token.XorAssign, r)
      | _ => some (Token.BitXor, rest)
    else if c = '!' then
      match rest with
      | '=' :: r => some (Token.Ne, r)
      | _ => some (Token.Not, rest)
    else if c = '=' then
      match rest with
      | '=' :: r => some (Token.Eq, r)
      | _ => some (Token.Assign, rest)
    else if c = '<' then
      match rest with
      | '=' :: r => some (Token.Le, r)
      | '<' :: '=' :: r => some (Token.LeftShiftAssign, r)
      | '<' :: r => some (Token.LeftShift, r)
      | _ => some (Token.Lt, rest)
    else if c = '>' then
      match rest with
      | '=' :: r => some (Token.Ge, r)
      | '>' :: '=' :: r => some (Token.RightShiftAssign, r)
      | '>' :: r => some (Token.RightShift, r)
      | _ => some (Token.Gt, rest)
    else if c = dquote then some (read_string rest)
    else if c = squote then some (read_char rest)
    else some (Token.Eof, rest)

/-- Loop of tokenize (src/lexer.rs), with explicit fuel.  Each non-Eof token
consumes at least one input character, so `length + 1` units of fuel always
suffice; `tokenize` below supplies exactly that. -/
def tokenize_aux : Nat → List Char → Option (List Token)
  | 0, _ => none
  | fuel + 1, cs =>
    match next_token cs with
    | none => none
    | some (t, rest) =>
      if t == Token.Eof then some [t]
      else match tokenize_aux fuel rest with
        | none => none
        | some ts => some (t :: ts)

/-- tokenize (src/lexer.rs): the full token list, ending in Eof; `none` is
the read_number panic. -/
def tokenize (cs : List Char) : Option (List Token) :=
  tokenize_aux (cs.length + 1) cs

/-! The parser (src/parser.rs). -/

/-- Parser state (src/parser.rs, struct Parser): the token sequence, the
cursor, and the typedef-name set. -/
structure PState where
  tokens : List Token
  pos : Nat
  typedef_names : List String

/-- Rust Debug formatting of a token, as interpolated by format! in the
parser's error messages. -/
def reprToken : Token → String
  | Token.Int => "Int"
  | Token.Char => "Char"
  | Token.Float => "Float"
  | Token.Double => "Double"
  | Token.Void => "Void"
  | Token.Long => "Long"
  | Token.Short => "Short"
  | Token.Unsigned => "Unsigned"
  | Token.Signed => "Signed"
  | Token.Struct => "Struct"
  | Token.Union => "Union"
  | Token.Enum => "Enum"
  | Token.Typedef => "Typedef"
  | Token.Const => "Const"
  | Token.Volatile => "Volatile"
  | Token.Static => "Static"
  | Token.Extern => "Extern"
  | Token.Auto => "Auto"
  | Token.Register => "Register"
  | Token.If => "If"
  | Token.Else => "Else"
  | Token.While => "While"
  | Token.Do => "Do"
  | Token.For => "For"
  | Token.Switch => "Switch"
  | Token.Case => "Case"
  | Token.Default => "Default"
  | Token.Break => "Break"
  | Token.Continue => "Continue"
  | Token.Return => "Return"
  | Token.Goto => "Goto"
  | Token.Sizeof => "Sizeof"
  | Token.Include s => "Include(" ++ String.singleton dquote ++ s ++ String.singleton dquote ++ ")"
  | Token.Define n v => "Define(" ++ String.singleton dquote ++ n ++ String.singleton dquote ++ ", " ++ String.singleton dquote ++ v ++ String.singleton dquote ++ ")"
  | Token.Ifdef => "Ifdef"
  | Token.Ifndef => "Ifndef"
  | Token.Endif => "Endif"
  | Token.Identifier s => "Identifier(" ++ String.singleton dquote ++ s ++ String.singleton dquote ++ ")"
  | Token.IntLiteral n => "IntLiteral(" ++ toString n ++ ")"
  | Token.FloatLiteral raw => "FloatLiteral(" ++ raw ++ ")"
  | Token.CharLiteral c => "CharLiteral(" ++ String.singleton squote ++ String.singleton c ++ String.singleton squote ++ ")"
  | Token.StringLiteral s => "StringLiteral(" ++ String.singleton dquote ++ s ++ String.singleton dquote ++ ")"
  | Token.Plus => "Plus"
  | Token.Minus => "Minus"
  | Token.Star => "Star"
  | Token.Slash => "Slash"
  | Token.Percent => "Percent"
  | Token.BitAnd => "BitAnd"
  | Token.BitOr => "BitOr"
  | Token.BitXor => "BitXor"
  | Token.BitNot => "BitNot"
  | Token.LeftShift => "LeftShift"
  | Token.RightShift => "RightShift"
  | Token.Assign => "Assign"
  | Token.PlusAssign => "PlusAssign"
  | Token.MinusAssign => "MinusAssign"
  | Token.StarAssign => "StarAssign"
  | Token.SlashAssign => "SlashAssign"
  | Token.PercentAssign => "PercentAssign"
  | Token.AndAssign => "AndAssign"
  | Token.OrAssign => "OrAssign"
  | Token.XorAssign => "XorAssign"
  | Token.LeftShiftAssign => "LeftShiftAssign"
  | Token.RightShiftAssign => "RightShiftAssign"
  | Token.Eq => "Eq"
  | Token.Ne => "Ne"
  | Token.Lt => "Lt"
  | Token.Gt => "Gt"
  | Token.Le => "Le"
  | Token.Ge => "Ge"
  | Token.And => "And"
  | Token.Or => "Or"
  | Token.Not => "Not"
  | Token.Ampersand => "Ampersand"
  | Token.Increment => "Increment"
  | Token.Decrement => "Decrement"
  | Token.Arrow => "Arrow"
  | Token.Dot => "Dot"
  | Token.Question => "Question"
  | Token.Colon => "Colon"
  | Token.LParen => "LParen"
  | Token.RParen => "RParen"
  | Token.LBrace => "LBrace"
  | Token.RBrace => "RBrace"
  | Token.LBracket => "LBracket"
  | Token.RBracket => "RBracket"
  | Token.Semicolon => "Semicolon"
  | Token.Comma => "Comma"
  | Token.Eof => "Eof"
  | Token.Ellipsis => "Ellipsis"

/-- current_token (src/parser.rs): tokens.get(pos).unwrap_or(Eof). -/
def current_token (s : PState) : Token :=
  s.tokens.getD s.pos Token.Eof

/-- advance (src/parser.rs): move the cursor forward, staying in bounds. -/
def advance_state (s : PState) : PState :=
  if s.pos < s.tokens.length then { s with pos := s.pos + 1 } else s

/-- HashSet::insert on the typedef-name set, modelled on lists. -/
def insert_name (n : String) (l : List String) : List String :=
  if l.contains n then l else n :: l

/-- The parser monad: a Rust `&mut self` method returning Result.  The final
state is produced on both Ok and Err paths (in-place mutation); `none` means
the recursion fuel ran out. -/
def PM (α : Type) : Type :=
  PState → Option (Except String α × PState)

/-- Monadic return for PM. -/
def PM.pure (a : α) : PM α := fun s => some (Except.ok a, s)

/-- Monadic bind for PM: an Err short-circuits, keeping its state, exactly
like the `?` operator on `&mut self`. -/
def PM.bind (m : PM α) (f : α → PM β) : PM β := fun s =>
  match m s with
  | none => none
  | some (Except.error e, s') => some (Except.error e, s')
  | some (Except.ok a, s') => f a s'

instance : Monad PM where
  pure := PM.pure
  bind := PM.bind

/-- Read the current token. -/
def curTok : PM Token := fun s => some (Except.ok (current_token s), s)

/-- self.advance(). -/
def advanceP : PM Unit := fun s => some (Except.ok (), advance_state s)

/-- Return an Err (the state is unchanged at the point of return). -/
def errP (e : String) : PM α := fun s => some (Except.error e, s)

/-- Read the typedef-name set. -/
def getTypedefs : PM (List String) := fun s => some (Except.ok s.typedef_names, s)

/-- self.typedef_names.insert(n). -/
def insertTypedef (n : String) : PM Unit := fun s =>
  some (Except.ok (), { s with typedef_names := insert_name n s.typedef_names })

/-- Fuel exhaustion marker (not a Rust behaviour: see the PM comment). -/
def noFuel : PM α := fun _ => none

/-- The message format of expect (src/parser.rs): an unexpected-token error
always names the expected token first. -/
def expect_err (expected actual : Token) : String :=
  "Expected " ++ reprToken expected ++ ", got " ++ reprToken actual

/-- expect (src/parser.rs): consume the expected token or fail with the
"Expected .., got .." message. -/
def expectT (expected : Token) : PM Unit := fun s =>
  if current_token s == expected then some (Except.ok (), advance_state s)
  else some (Except.error (expect_err expected (current_token s)), s)

/-- is_type_keyword (src/parser.rs): the token-level test. -/
def is_type_keyword_tok : Token → Bool
  | Token.Int | Token.Char | Token.Float | Token.Double | Token.Void
  | Token.Long | Token.Short | Token.Unsigned | Token.Signed
  | Token.Const | Token.Volatile
  | Token.Struct | Token.Union | Token.Enum => true
  | _ => false

/-- The combined cast-position test used by parse_primary and the sizeof
branch: is_type_keyword() or an identifier in the typedef-name set. -/
def is_type_start : PM Bool := fun s =>
  some (Except.ok (is_type_keyword_tok (current_token s)
    || (match current_token s with
        | Token.Identifier n => s.typedef_names.contains n
        | _ => false)), s)

/-- Mutable flag set of the parse_type specifier loop (src/parser.rs,
locals of parse_type). -/
structure TFlags where
  is_const : Bool := false
  is_volatile : Bool := false
  is_unsigned : Bool := false
  is_signed : Bool := false
  saw_char : Bool := false
  saw_float : Bool := false
  saw_double : Bool := false
  saw_void : Bool := false
  long_count : Nat := 0
  saw_short : Bool := false
  base_type : Option CType := none
  consumed_any : Bool := false

/-- Base-type resolution ladder of parse_type (src/parser.rs), applied after
the specifier loop: explicit composite/typedef base wins, then char (with
sign flags), double, float, void, then the integer family where short beats
long and sign flags apply last. -/
def resolve_base (f : TFlags) : CType :=
  match f.base_type with
  | some bt => bt
  | none =>
    if f.saw_char then
      if f.is_unsigned then CType.UnsignedChar
      else if f.is_signed then CType.SignedChar
      else CType.Char
    else if f.saw_double then CType.Double
    else if f.saw_float then CType.Float
    else if f.saw_void then CType.Void
    else if f.saw_short then
      if f.is_unsigned then CType.UnsignedShort else CType.Short
    else if f.long_count > 0 then
      if f.is_unsigned then CType.UnsignedLong else CType.Long
    else
      if f.is_unsigned then CType.UnsignedInt
      else if f.is_signed then CType.SignedInt
      else CType.Int

/-- Rust `n as usize` on an i32 value (64-bit target). -/
def usize_of_i32 (n : Int) : Nat :=
  (n % (18446744073709551616 : Int)).toNat

/-- Operator selection of parse_multiplicative (src/parser.rs). -/
def mul_op : Token → Option BinaryOp
  | Token.Star => some BinaryOp.Mul
  | Token.Slash => some BinaryOp.Div
  | Token.Percent => some BinaryOp.Mod
  | _ => none

/-- Operator selection of parse_additive (src/parser.rs). -/
def add_op : Token → Option BinaryOp
  | Token.Plus => some BinaryOp.Add
  | Token.Minus => some BinaryOp.Sub
  | _ => none

/-- Operator selection of parse_comparison (src/parser.rs). -/
def cmp_op : Token → Option BinaryOp
  | Token.Lt => some BinaryOp.Lt
  | Token.Gt => some BinaryOp.Gt
  | Token.Le => some BinaryOp.Le
  | Token.Ge => some BinaryOp.Ge
  | Token.Eq => some BinaryOp.Eq
  | Token.Ne => some BinaryOp.Ne
  | _ => none

/-- Operator selection of parse_shift (src/parser.rs). -/
def shift_op : Token → Option BinaryOp
  | Token.LeftShift => some BinaryOp.LeftShift
  | Token.RightShift => some BinaryOp.RightShift
  | _ => none

/-- Operator selection of parse_logical (src/parser.rs). -/
def logical_op : Token → Option BinaryOp
  | Token.And => some BinaryOp.And
  | Token.Or => some BinaryOp.Or
  | _ => none

/-- The compound-assignment desugaring table of parse_assignment
(src/parser.rs): which binary operator `a OP= b` lowers to. -/
def compound_bin_op : Token → Option BinaryOp
  | Token.PlusAssign => some BinaryOp.Add
  | Token.MinusAssign => some BinaryOp.Sub
  | Token.StarAssign => some BinaryOp.Mul
  | Token.SlashAssign => some BinaryOp.Div
  | Token.PercentAssign => some BinaryOp.Mod
  | Token.AndAssign => some BinaryOp.BitAnd
  | Token.OrAssign => some BinaryOp.BitOr
  | Token.XorAssign => some BinaryOp.BitXor
  | Token.LeftShiftAssign => some BinaryOp.LeftShift
  | Token.RightShiftAssign => some BinaryOp.RightShift
  | _ => none

/-! The recursive-descent functions of src/parser.rs.  Every Rust `loop` /
`while` becomes a recursive helper; all recursion is fuelled by a Nat that
every call decrements, so the block is structurally recursive and the
definitions compute by kernel reduction.  Fuel exhaustion returns `none`. -/

set_option maxHeartbeats 3200000 in
mutual

/-- Storage-class discard loop at the top of parse_type (src/parser.rs). -/
def skip_storage : Nat → PM Unit
  | 0 => noFuel
  | fuel + 1 => do
    let c ← curTok
    match c with
    | Token.Static | Token.Extern | Token.Auto | Token.Register => do
      advanceP
      skip_storage fuel
    | _ => pure ()

/-- Specifier collection loop of parse_type (src/parser.rs): consume
qualifiers, sign keywords, long/short, base keywords, composite introducers
and known typedef names, until the first token matching none of them. -/
def type_spec_loop : Nat → TFlags → PM TFlags
  | 0, _ => noFuel
  | fuel + 1, f => do
    let c ← curTok
    match c with
    | Token.Const => do
      advanceP
      type_spec_loop fuel { f with is_const := true, consumed_any := true }
    | Token.Volatile => do
      advanceP
      type_spec_loop fuel { f with is_volatile := true, consumed_any := true }
    | Token.Unsigned => do
      advanceP
      type_spec_loop fuel { f with is_unsigned := true, consumed_any := true }
    | Token.Signed => do
      advanceP
      type_spec_loop fuel { f with is_signed := true, consumed_any := true }
    | Token.Long => do
      advanceP
      type_spec_loop fuel
        { f with long_count := min (f.long_count + 1) 255, consumed_any := true }
    | Token.Short => do
      advanceP
      type_spec_loop fuel { f with saw_short := true, consumed_any := true }
    | Token.Int => do
      advanceP
      type_spec_loop fuel { f with consumed_any := true }
    | Token.Char => do
      advanceP
      type_spec_loop fuel { f with saw_char := true, consumed_any := true }
    | Token.Float => do
      advanceP
      type_spec_loop fuel { f with saw_float := true, consumed_any := true }
    | Token.Double => do
      advanceP
      type_spec_loop fuel { f with saw_double := true, consumed_any := true }
    | Token.Void => do
      advanceP
      type_spec_loop fuel { f with saw_void := true, consumed_any := true }
    | Token.Struct => do
      advanceP
      let c2 ← curTok
      match c2 with
      | Token.Identifier name => do
        advanceP
        type_spec_loop fuel
          { f with base_type := some (CType.Struct name), consumed_any := true }
      | Token.LBrace => do
        skip_brace_block fuel
        type_spec_loop fuel
          { f with base_type := some (CType.Struct ""), consumed_any := true }
      | _ => errP ("Expected struct name")
    | Token.Union => do
      advanceP
      let c2 ← curTok
      match c2 with
      | Token.Identifier name => do
        advanceP
        type_spec_loop fuel
          { f with base_type := some (CType.Union name), consumed_any := true }
      | Token.LBrace => do
        skip_brace_block fuel
        type_spec_loop fuel
          { f with base_type := some (CType.Union ""), consumed_any := true }
      | _ => errP ("Expected union name")
    | Token.Enum => do
      advanceP
      let c2 ← curTok
      match c2 with
      | Token.Identifier name => do
        advanceP
        type_spec_loop fuel
          { f with base_type := some (CType.Enum name), consumed_any := true }
      | Token.LBrace => do
        skip_brace_block fuel
        type_spec_loop fuel
          { f with base_type := some (CType.Enum ""), consumed_any := true }
      | _ => errP ("Expected enum name")
    | Token.Identifier name => do
      let tds ← getTypedefs
      if tds.contains name then do
        advanceP
        type_spec_loop fuel
          { f with base_type := some (CType.Typedef name), consumed_any := true }
      else pure f
    | _ => pure f

/-- Trailing pointer-star loop, used by parse_type and by the pointer-prefix
phase of parse_declarator (identical loops in src/parser.rs). -/
def star_loop : Nat → CType → PM CType
  | 0, _ => noFuel
  | fuel + 1, t => do
    let c ← curTok
    if c == Token.Star then do
      advanceP
      star_loop fuel (CType.Pointer t)
    else pure t

/-- parse_type (src/parser.rs). -/
def parse_type : Nat → PM CType
  | 0 => noFuel
  | fuel + 1 => do
    skip_storage fuel
    let f ← type_spec_loop fuel {}
    if f.consumed_any then do
      let t1 ← star_loop fuel (resolve_base f)
      let t2 := if f.is_const then CType.Const t1 else t1
      pure (if f.is_volatile then CType.Volatile t2 else t2)
    else do
      let c ← curTok
      errP ("Expected type, got " ++ reprToken c)

/-- skip_brace_block (src/parser.rs): expect an opening brace, then skip to
the matching close, tolerating a missing close at Eof. -/
def skip_brace_block : Nat → PM Unit
  | 0 => noFuel
  | fuel + 1 => do
    expectT Token.LBrace
    brace_loop fuel 1

/-- Depth-counting loop of skip_brace_block (src/parser.rs). -/
def brace_loop : Nat → Nat → PM Unit
  | 0, _ => noFuel
  | fuel + 1, depth =>
    if depth = 0 then pure ()
    else do
      let c ← curTok
      match c with
      | Token.LBrace => do
        advanceP
        brace_loop fuel (depth + 1)
      | Token.RBrace => do
        advanceP
        brace_loop fuel (depth - 1)
      | Token.Eof => pure ()
      | _ => do
        advanceP
        brace_loop fuel depth

/-- Field loop shared by parse_struct_def and parse_union_def
(src/parser.rs): the two Rust loops are textually identical. -/
def fields_loop : Nat → List StructField → PM (List StructField)
  | 0, _ => noFuel
  | fuel + 1, acc => do
    let c ← curTok
    if c == Token.RBrace || c == Token.Eof then pure acc
    else do
      let basety ← parse_type fuel
      let fd ← parse_declarator fuel basety
      expectT Token.Semicolon
      fields_loop fuel (acc ++ [⟨fd.2, fd.1⟩])

/-- parse_struct_def (src/parser.rs). -/
def parse_struct_def : Nat → PM StructDef
  | 0 => noFuel
  | fuel + 1 => do
    expectT Token.Struct
    let c ← curTok
    match c with
    | Token.Identifier n => do
      advanceP
      expectT Token.LBrace
      let fields ← fields_loop fuel []
      expectT Token.RBrace
      pure ⟨n, fields⟩
    | _ => errP ("Expected struct name")

/-- parse_union_def (src/parser.rs). -/
def parse_union_def : Nat → PM UnionDef
  | 0 => noFuel
  | fuel + 1 => do
    expectT Token.Union
    let c ← curTok
    match c with
    | Token.Identifier n => do
      advanceP
      expectT Token.LBrace
      let fields ← fields_loop fuel []
      expectT Token.RBrace
      pure ⟨n, fields⟩
    | _ => errP ("Expected union name")

/-- Variant loop of parse_enum_def (src/parser.rs). -/
def variants_loop : Nat → List EnumVariant → PM (List EnumVariant)
  | 0, _ => noFuel
  | fuel + 1, acc => do
    let c ← curTok
    if c == Token.RBrace || c == Token.Eof then pure acc
    else match c with
      | Token.Identifier n => do
        advanceP
        let c2 ← curTok
        let value ← (if c2 == Token.Assign then do
            advanceP
            let c3 ← curTok
            match c3 with
            | Token.IntLiteral v => do
              advanceP
              pure (some v)
            | _ => errP ("Expected integer literal for enum value")
          else pure none)
        let c4 ← curTok
        if c4 == Token.Comma then do
          advanceP
          variants_loop fuel (acc ++ [⟨n, value⟩])
        else pure (acc ++ [⟨n, value⟩])
      | _ => errP ("Expected enum variant name")

/-- parse_enum_def (src/parser.rs): the tag name is optional (anonymous
enums are allowed). -/
def parse_enum_def : Nat → PM EnumDef
  | 0 => noFuel
  | fuel + 1 => do
    expectT Token.Enum
    let c ← curTok
    let name ← (match c with
      | Token.Identifier n => do
        advanceP
        pure n
      | _ => pure "")
    expectT Token.LBrace
    let variants ← variants_loop fuel []
    expectT Token.RBrace
    pure ⟨name, variants⟩

/-- Extra-name comma loop of parse_typedef's regular branch (src/parser.rs):
further declarators are parsed against the same base and only their names
are registered. -/
def typedef_tail_loop : Nat → CType → PM Unit
  | 0, _ => noFuel
  | fuel + 1, base => do
    let c ← curTok
    if c == Token.Comma then do
      advanceP
      let d ← parse_declarator fuel base
      insertTypedef d.1
      typedef_tail_loop fuel base
    else pure ()

/-- parse_typedef (src/parser.rs).  The struct/union/enum branch registers
the alias after the final semicolon; the regular branch registers every
alias before the semicolon is checked.  The Rust `match kind` that picks the
base constructor is resolved inside each arm here. -/
def parse_typedef : Nat → PM TypedefDef
  | 0 => noFuel
  | fuel + 1 => do
    expectT Token.Typedef
    let c ← curTok
    match c with
    | Token.Struct => do
      advanceP
      let c2 ← curTok
      let tag ← (match c2 with
        | Token.Identifier n => do
          advanceP
          pure (some n)
        | _ => pure none)
      let c3 ← curTok
      let _ ← (if c3 == Token.LBrace then skip_brace_block fuel else pure ())
      let d ← parse_declarator fuel (CType.Struct (tag.getD ""))
      expectT Token.Semicolon
      insertTypedef d.1
      pure ⟨d.1, d.2⟩
    | Token.Union => do
      advanceP
      let c2 ← curTok
      let tag ← (match c2 with
        | Token.Identifier n => do
          advanceP
          pure (some n)
        | _ => pure none)
      let c3 ← curTok
      let _ ← (if c3 == Token.LBrace then skip_brace_block fuel else pure ())
      let d ← parse_declarator fuel (CType.Union (tag.getD ""))
      expectT Token.Semicolon
      insertTypedef d.1
      pure ⟨d.1, d.2⟩
    | Token.Enum => do
      advanceP
      let c2 ← curTok
      let tag ← (match c2 with
        | Token.Identifier n => do
          advanceP
          pure (some n)
        | _ => pure none)
      let c3 ← curTok
      let _ ← (if c3 == Token.LBrace then skip_brace_block fuel else pure ())
      let d ← parse_declarator fuel (CType.Enum (tag.getD ""))
      expectT Token.Semicolon
      insertTypedef d.1
      pure ⟨d.1, d.2⟩
    | _ => do
      let base_type ← parse_type fuel
      let d ← parse_declarator fuel base_type
      insertTypedef d.1
      typedef_tail_loop fuel base_type
      expectT Token.Semicolon
      pure ⟨d.1, d.2⟩

/-- Parameter loop of parse_declarator_suffix (src/parser.rs): an ellipsis
ends the scan without a parameter entry; parameter names are discarded. -/
def params_loop : Nat → List CType → PM (List CType)
  | 0, _ => noFuel
  | fuel + 1, acc => do
    let c ← curTok
    if c == Token.Ellipsis then do
      advanceP
      pure acc
    else do
      let pty ← parse_type fuel
      let c2 ← curTok
      let _ ← (match c2 with
        | Token.Identifier _ => advanceP
        | _ => pure ())
      let c3 ← curTok
      if c3 == Token.Comma then do
        advanceP
        params_loop fuel (acc ++ [pty])
      else pure (acc ++ [pty])

/-- parse_declarator_suffix (src/parser.rs): repeatedly wrap the current
type with Array for a bracket suffix or Function for a parenthesized
parameter list. -/
def parse_declarator_suffix : Nat → CType → PM CType
  | 0, _ => noFuel
  | fuel + 1, base => do
    let c ← curTok
    match c with
    | Token.LBracket => do
      advanceP
      let c2 ← curTok
      let size ← (match c2 with
        | Token.IntLiteral n => do
          advanceP
          pure (some (usize_of_i32 n))
        | _ => pure none)
      expectT Token.RBracket
      parse_declarator_suffix fuel (CType.Array base size)
    | Token.LParen => do
      advanceP
      let c2 ← curTok
      let params ← (if c2 == Token.RParen then pure [] else params_loop fuel [])
      expectT Token.RParen
      parse_declarator_suffix fuel (CType.Function base params)
    | _ => pure base

/-- parse_declarator (src/parser.rs): pointer prefix, then an identifier or
a parenthesized sub-declarator, then the postfix suffixes applied to the
type the direct declarator produced. -/
def parse_declarator : Nat → CType → PM (String × CType)
  | 0, _ => noFuel
  | fuel + 1, base => do
    let ty ← star_loop fuel base
    let c ← curTok
    match c with
    | Token.Identifier n => do
      advanceP
      let ty2 ← parse_declarator_suffix fuel ty
      pure (n, ty2)
    | Token.LParen => do
      advanceP
      let d ← parse_declarator fuel ty
      expectT Token.RParen
      let ty2 ← parse_declarator_suffix fuel d.2
      pure (d.1, ty2)
    | _ => errP ("Expected typedef name, got " ++ reprToken c)

/-- Adjacent string-literal concatenation loop of parse_primary
(src/parser.rs). -/
def str_concat_loop : Nat → String → PM String
  | 0, _ => noFuel
  | fuel + 1, acc => do
    let c ← curTok
    match c with
    | Token.StringLiteral s2 => do
      advanceP
      str_concat_loop fuel (acc ++ s2)
    | _ => pure acc

/-- Call-argument comma loop of parse_primary (src/parser.rs). -/
def call_args_loop : Nat → List Expr → PM (List Expr)
  | 0, _ => noFuel
  | fuel + 1, acc => do
    let c ← curTok
    if c == Token.Comma then do
      advanceP
      let a ← parse_expr fuel
      call_args_loop fuel (acc ++ [a])
    else pure acc

/-- parse_primary (src/parser.rs). -/
def parse_primary : Nat → PM Expr
  | 0 => noFuel
  | fuel + 1 => do
    let c ← curTok
    match c with
    | Token.IntLiteral n => do
      advanceP
      pure (Expr.IntLiteral n)
    | Token.FloatLiteral f => do
      advanceP
      pure (Expr.FloatLiteral f)
    | Token.CharLiteral ch => do
      advanceP
      pure (Expr.CharLiteral ch)
    | Token.StringLiteral s => do
      advanceP
      let acc ← str_concat_loop fuel s
      pure (Expr.StringLiteral acc)
    | Token.Identifier name => do
      advanceP
      let c2 ← curTok
      if c2 == Token.LParen then do
        advanceP
        let c3 ← curTok
        let args ← (if c3 == Token.RParen then pure []
          else do
            let a ← parse_expr fuel
            call_args_loop fuel [a])
        expectT Token.RParen
        pure (Expr.Call name args)
      else pure (Expr.Identifier name)
    | Token.LParen => do
      advanceP
      let c2 ← curTok
      if c2 == Token.LBrace then do
        skip_brace_block fuel
        expectT Token.RParen
        pure Expr.Null
      else do
        let isT ← is_type_start
        if isT then do
          let typ ← parse_type fuel
          expectT Token.RParen
          let c3 ← curTok
          if c3 == Token.LBrace then do
            skip_brace_block fuel
            pure Expr.Null
          else do
            let e ← parse_unary fuel
            pure (Expr.Cast typ e)
        else do
          let e ← parse_expr fuel
          expectT Token.RParen
          pure e
    | Token.Sizeof => do
      advanceP
      let c2 ← curTok
      if c2 == Token.LParen then do
        advanceP
        let isT ← is_type_start
        if isT then do
          let typ ← parse_type fuel
          expectT Token.RParen
          pure (Expr.SizeOf typ)
        else do
          let _ ← parse_expr fuel
          expectT Token.RParen
          pure Expr.Null
      else do
        let _ ← parse_unary fuel
        pure Expr.Null
    | _ => errP ("Unexpected token in expression: " ++ reprToken c)

/-- parse_unary (src/parser.rs). -/
def parse_unary : Nat → PM Expr
  | 0 => noFuel
  | fuel + 1 => do
    let c ← curTok
    match c with
    | Token.Minus => do
      advanceP
      let e ← parse_unary fuel
      pure (Expr.Unary UnaryOp.Neg e)
    | Token.Not => do
      advanceP
      let e ← parse_unary fuel
      pure (Expr.Unary UnaryOp.Not e)
    | Token.BitNot => do
      advanceP
      let e ← parse_unary fuel
      pure (Expr.Unary UnaryOp.BitNot e)
    | Token.Star => do
      advanceP
      let e ← parse_unary fuel
      pure (Expr.Unary UnaryOp.Deref e)
    | Token.Ampersand => do
      advanceP
      let e ← parse_unary fuel
      pure (Expr.Unary UnaryOp.AddressOf e)
    | Token.Increment => do
      advanceP
      let e ← parse_unary fuel
      pure (Expr.Unary UnaryOp.PreIncrement e)
    | Token.Decrement => do
      advanceP
      let e ← parse_unary fuel
      pure (Expr.Unary UnaryOp.PreDecrement e)
    | _ => parse_postfix fuel

/-- Postfix loop of parse_postfix (src/parser.rs): array access, member
access, arrow access, postfix increment/decrement. -/
def postfix_loop : Nat → Expr → PM Expr
  | 0, _ => noFuel
  | fuel + 1, e => do
    let c ← curTok
    match c with
    | Token.LBracket => do
      advanceP
      let idx ← parse_expr fuel
      expectT Token.RBracket
      postfix_loop fuel (Expr.ArrayAccess e idx)
    | Token.Dot => do
      advanceP
      let c2 ← curTok
      match c2 with
      | Token.Identifier m => do
        advanceP
        postfix_loop fuel (Expr.MemberAccess e m)
      | _ => errP ("Expected identifier after " ++ String.singleton squote
          ++ "." ++ String.singleton squote ++ ", got " ++ reprToken c2)
    | Token.Arrow => do
      advanceP
      let c2 ← curTok
      match c2 with
      | Token.Identifier m => do
        advanceP
        postfix_loop fuel (Expr.PointerMemberAccess e m)
      | _ => errP ("Expected identifier after " ++ String.singleton squote
          ++ "->" ++ String.singleton squote ++ ", got " ++ reprToken c2)
    | Token.Increment => do
      advanceP
      postfix_loop fuel (Expr.Unary UnaryOp.PostIncrement e)
    | Token.Decrement => do
      advanceP
      postfix_loop fuel (Expr.Unary UnaryOp.PostDecrement e)
    | _ => pure e

/-- parse_postfix (src/parser.rs). -/
def parse_postfix : Nat → PM Expr
  | 0 => noFuel
  | fuel + 1 => do
    let e ← parse_primary fuel
    postfix_loop fuel e

/-- Operator loop of parse_multiplicative (src/parser.rs). -/
def mul_loop : Nat → Expr → PM Expr
  | 0, _ => noFuel
  | fuel + 1, l => do
    let c ← curTok
    match mul_op c with
    | some op => do
      advanceP
      let r ← parse_unary fuel
      mul_loop fuel (Expr.Binary op l r)
    | none => pure l

/-- parse_multiplicative (src/parser.rs). -/
def parse_multiplicative : Nat → PM Expr
  | 0 => noFuel
  | fuel + 1 => do
    let l ← parse_unary fuel
    mul_loop fuel l

/-- Operator loop of parse_additive (src/parser.rs). -/
def add_loop : Nat → Expr → PM Expr
  | 0, _ => noFuel
  | fuel + 1, l => do
    let c ← curTok
    match add_op c with
    | some op => do
      advanceP
      let r ← parse_multiplicative fuel
      add_loop fuel (Expr.Binary op l r)
    | none => pure l

/-- parse_additive (src/parser.rs). -/
def parse_additive : Nat → PM Expr
  | 0 => noFuel
  | fuel + 1 => do
    let l ← parse_multiplicative fuel
    add_loop fuel l

/-- Operator loop of parse_shift (src/parser.rs). -/
def shift_loop : Nat → Expr → PM Expr
  | 0, _ => noFuel
  | fuel + 1, l => do
    let c ← curTok
    match shift_op c with
    | some op => do
      advanceP
      let r ← parse_additive fuel
      shift_loop fuel (Expr.Binary op l r)
    | none => pure l

/-- parse_shift (src/parser.rs). -/
def parse_shift : Nat → PM Expr
  | 0 => noFuel
  | fuel + 1 => do
    let l ← parse_additive fuel
    shift_loop fuel l

/-- Operator loop of parse_comparison (src/parser.rs). -/
def cmp_loop : Nat → Expr → PM Expr
  | 0, _ => noFuel
  | fuel + 1, l => do
    let c ← curTok
    match cmp_op c with
    | some op => do
      advanceP
      let r ← parse_shift fuel
      cmp_loop fuel (Expr.Binary op l r)
    | none => pure l

/-- parse_comparison (src/parser.rs): relational and equality operators at
one level. -/
def parse_comparison : Nat → PM Expr
  | 0 => noFuel
  | fuel + 1 => do
    let l ← parse_shift fuel
    cmp_loop fuel l

/-- Operator loop of parse_bitwise_and (src/parser.rs): the Ampersand token
becomes BinaryOp.BitAnd. -/
def band_loop : Nat → Expr → PM Expr
  | 0, _ => noFuel
  | fuel + 1, l => do
    let c ← curTok
    if c == Token.Ampersand then do
      advanceP
      let r ← parse_comparison fuel
      band_loop fuel (Expr.Binary BinaryOp.BitAnd l r)
    else pure l

/-- parse_bitwise_and (src/parser.rs). -/
def parse_bitwise_and : Nat → PM Expr
  | 0 => noFuel
  | fuel + 1 => do
    let l ← parse_comparison fuel
    band_loop fuel l

/-- Operator loop of parse_bitwise_xor (src/parser.rs). -/
def bxor_loop : Nat → Expr → PM Expr
  | 0, _ => noFuel
  | fuel + 1, l => do
    let c ← curTok
    if c == Token.BitXor then do
      advanceP
      let r ← parse_bitwise_and fuel
      bxor_loop fuel (Expr.Binary BinaryOp.BitXor l r)
    else pure l

/-- parse_bitwise_xor (src/parser.rs). -/
def parse_bitwise_xor : Nat → PM Expr
  | 0 => noFuel
  | fuel + 1 => do
    let l ← parse_bitwise_and fuel
    bxor_loop fuel l

/-- Operator loop of parse_bitwise_or (src/parser.rs). -/
def bor_loop : Nat → Expr → PM Expr
  | 0, _ => noFuel
  | fuel + 1, l => do
    let c ← curTok
    if c == Token.BitOr then do
      advanceP
      let r ← parse_bitwise_xor fuel
      bor_loop fuel (Expr.Binary BinaryOp.BitOr l r)
    else pure l

/-- parse_bitwise_or (src/parser.rs). -/
def parse_bitwise_or : Nat → PM Expr
  | 0 => noFuel
  | fuel + 1 => do
    let l ← parse_bitwise_xor fuel
    bor_loop fuel l

/-- Operator loop of parse_logical (src/parser.rs). -/
def logical_loop : Nat → Expr → PM Expr
  | 0, _ => noFuel
  | fuel + 1, l => do
    let c ← curTok
    match logical_op c with
    | some op => do
      advanceP
      let r ← parse_bitwise_or fuel
      logical_loop fuel (Expr.Binary op l r)
    | none => pure l

/-- parse_logical (src/parser.rs). -/
def parse_logical : Nat → PM Expr
  | 0 => noFuel
  | fuel + 1 => do
    let l ← parse_bitwise_or fuel
    logical_loop fuel l

/-- parse_ternary (src/parser.rs): right-associative conditional operator. -/
def parse_ternary : Nat → PM Expr
  | 0 => noFuel
  | fuel + 1 => do
    let cond ← parse_logical fuel
    let c ← curTok
    if c == Token.Question then do
      advanceP
      let t ← parse_expr fuel
      expectT Token.Colon
      let e ← parse_ternary fuel
      pure (Expr.Ternary cond t e)
    else pure cond

/-- parse_assignment (src/parser.rs): plain assignment recurses to the
right; a compound-assignment operator desugars `a OP= b` into
Assignment(a, Binary(OP, a, b)). -/
def parse_assignment : Nat → PM Expr
  | 0 => noFuel
  | fuel + 1 => do
    let left ← parse_ternary fuel
    let c ← curTok
    if c == Token.Assign then do
      advanceP
      let right ← parse_assignment fuel
      pure (Expr.Assignment left right)
    else match compound_bin_op c with
      | some bop => do
        advanceP
        let right ← parse_assignment fuel
        pure (Expr.Assignment left (Expr.Binary bop left right))
      | none => pure left

/-- parse_expr (src/parser.rs). -/
def parse_expr : Nat → PM Expr
  | 0 => noFuel
  | fuel + 1 => parse_assignment fuel

/-- Initializer pattern shared by statement and global declarations
(src/parser.rs, repeated inline): an = introduces either an aggregate
initializer in braces (skipped, yielding no initializer) or an expression. -/
def parse_opt_init : Nat → PM (Option Expr)
  | 0 => noFuel
  | fuel + 1 => do
    let c ← curTok
    if c == Token.Assign then do
      advanceP
      let c2 ← curTok
      if c2 == Token.LBrace then do
        skip_brace_block fuel
        pure none
      else do
        let e ← parse_expr fuel
        pure (some e)
    else pure none

/-- Comma-separated extra declarators of the keyword-led declaration branch
of parse_statement (src/parser.rs). -/
def decl_list_loop : Nat → CType → List Stmt → PM (List Stmt)
  | 0, _, _ => noFuel
  | fuel + 1, base, acc => do
    let c ← curTok
    if c == Token.Comma then do
      advanceP
      let d ← parse_declarator fuel base
      let init ← parse_opt_init fuel
      decl_list_loop fuel base (acc ++ [Stmt.VarDecl d.2 d.1 init])
    else pure acc

/-- Statement-list loop used for every brace-delimited body
(src/parser.rs, repeated inline): parse statements until RBrace or Eof. -/
def stmt_list_loop : Nat → List Stmt → PM (List Stmt)
  | 0, _ => noFuel
  | fuel + 1, acc => do
    let c ← curTok
    if c == Token.RBrace || c == Token.Eof then pure acc
    else do
      let st ← parse_statement fuel
      stmt_list_loop fuel (acc ++ [st])

/-- Brace-block-or-single-statement pattern of if/while/do/for bodies
(src/parser.rs, repeated inline). -/
def block_or_stmt : Nat → PM (List Stmt)
  | 0 => noFuel
  | fuel + 1 => do
    let c ← curTok
    if c == Token.LBrace then do
      advanceP
      let stmts ← stmt_list_loop fuel []
      expectT Token.RBrace
      pure stmts
    else do
      let st ← parse_statement fuel
      pure [st]

/-- Default arm of parse_statement (src/parser.rs): an expression statement
terminated by a semicolon. -/
def expr_statement : Nat → PM Stmt
  | 0 => noFuel
  | fuel + 1 => do
    let e ← parse_expr fuel
    expectT Token.Semicolon
    pure (Stmt.Expr e)

/-- parse_statement (src/parser.rs).  The declaration branch triggers on
the listed keywords (note: not Void, Auto or Register) or on an identifier
in the typedef-name set; the latter parses exactly one declarator. -/
def parse_statement : Nat → PM Stmt
  | 0 => noFuel
  | fuel + 1 => do
    let c ← curTok
    match c with
    | Token.Int | Token.Char | Token.Float | Token.Double | Token.Long
    | Token.Short | Token.Unsigned | Token.Signed | Token.Const
    | Token.Volatile | Token.Static | Token.Extern | Token.Struct
    | Token.Union | Token.Enum => do
      let basety ← parse_type fuel
      let d ← parse_declarator fuel basety
      let init ← parse_opt_init fuel
      let decls ← decl_list_loop fuel basety [Stmt.VarDecl d.2 d.1 init]
      expectT Token.Semicolon
      match decls with
      | [single] => pure single
      | ds => pure (Stmt.Block ds)
    | Token.Identifier name => do
      let tds ← getTypedefs
      if tds.contains name then do
        let basety ← parse_type fuel
        let d ← parse_declarator fuel basety
        let init ← parse_opt_init fuel
        expectT Token.Semicolon
        pure (Stmt.VarDecl d.2 d.1 init)
      else expr_statement fuel
    | Token.Return => do
      advanceP
      let c2 ← curTok
      let e ← (if c2 != Token.Semicolon then do
          let x ← parse_expr fuel
          pure (some x)
        else pure none)
      expectT Token.Semicolon
      pure (Stmt.Return e)
    | Token.If => do
      advanceP
      expectT Token.LParen
      let cond ← parse_expr fuel
      expectT Token.RParen
      let then_block ← block_or_stmt fuel
      let c2 ← curTok
      let else_block ← (if c2 == Token.Else then do
          advanceP
          let b ← block_or_stmt fuel
          pure (some b)
        else pure none)
      pure (Stmt.If cond then_block else_block)
    | Token.While => do
      advanceP
      expectT Token.LParen
      let cond ← parse_expr fuel
      expectT Token.RParen
      let body ← block_or_stmt fuel
      pure (Stmt.While cond body)
    | Token.Switch => do
      advanceP
      expectT Token.LParen
      let _ ← parse_expr fuel
      expectT Token.RParen
      let c2 ← curTok
      if c2 == Token.LBrace then do
        skip_brace_block fuel
        pure Stmt.Empty
      else do
        let _ ← parse_statement fuel
        pure Stmt.Empty
    | Token.Do => do
      advanceP
      let body ← block_or_stmt fuel
      expectT Token.While
      expectT Token.LParen
      let cond ← parse_expr fuel
      expectT Token.RParen
      expectT Token.Semicolon
      pure (Stmt.DoWhile body cond)
    | Token.For => do
      advanceP
      expectT Token.LParen
      let c2 ← curTok
      let init ← (if c2 == Token.Semicolon then do
          advanceP
          pure none
        else do
          let st ← parse_statement fuel
          pure (some st))
      let c3 ← curTok
      let cond ← (if c3 == Token.Semicolon then do
          advanceP
          pure none
        else do
          let e ← parse_expr fuel
          expectT Token.Semicolon
          pure (some e))
      let c4 ← curTok
      let update ← (if c4 == Token.RParen then pure none
        else do
          let e ← parse_expr fuel
          pure (some e))
      expectT Token.RParen
      let body ← block_or_stmt fuel
      pure (Stmt.For init cond update body)
    | Token.Break => do
      advanceP
      expectT Token.Semicolon
      pure Stmt.Break
    | Token.Continue => do
      advanceP
      expectT Token.Semicolon
      pure Stmt.Continue
    | Token.Goto => do
      advanceP
      let c2 ← curTok
      match c2 with
      | Token.Identifier label => do
        advanceP
        expectT Token.Semicolon
        pure (Stmt.Goto label)
      | _ => errP ("Expected label after goto")
    | Token.LBrace => do
      advanceP
      let stmts ← stmt_list_loop fuel []
      expectT Token.RBrace
      pure (Stmt.Block stmts)
    | _ => expr_statement fuel

/-- Discarded comma-separated extra global declarators of parse_declaration
(src/parser.rs). -/
def global_tail_loop : Nat → CType → PM Unit
  | 0, _ => noFuel
  | fuel + 1, base => do
    let c ← curTok
    if c == Token.Comma then do
      advanceP
      let _ ← parse_declarator fuel base
      let c2 ← curTok
      (if c2 == Token.Assign then do
        advanceP
        let c3 ← curTok
        if c3 == Token.LBrace then skip_brace_block fuel
        else do
          let _ ← parse_expr fuel
          pure ()
       else pure ())
      global_tail_loop fuel base
    else pure ()

/-- parse_declaration (src/parser.rs): top-level dispatch on struct, union,
enum, typedef, and the declarator-driven function/global path. -/
def parse_declaration : Nat → PM Declaration
  | 0 => noFuel
  | fuel + 1 => do
    let c ← curTok
    match c with
    | Token.Struct => do
      let d ← parse_struct_def fuel
      let c2 ← curTok
      (if c2 == Token.Semicolon then advanceP else pure ())
      pure (Declaration.Struct d)
    | Token.Union => do
      let d ← parse_union_def fuel
      let c2 ← curTok
      (if c2 == Token.Semicolon then advanceP else pure ())
      pure (Declaration.Union d)
    | Token.Enum => do
      let d ← parse_enum_def fuel
      let c2 ← curTok
      (if c2 == Token.Semicolon then advanceP else pure ())
      pure (Declaration.Enum d)
    | Token.Typedef => do
      let d ← parse_typedef fuel
      pure (Declaration.Typedef d)
    | _ => do
      let base_type ← parse_type fuel
      let d ← parse_declarator fuel base_type
      match d.2 with
      | CType.Function return_type param_types => do
        let params := param_types.map (fun t => Param.mk t "")
        let c2 ← curTok
        if c2 == Token.Semicolon then do
          advanceP
          pure (Declaration.Function ⟨return_type, d.1, params, []⟩)
        else do
          expectT Token.LBrace
          let body ← stmt_list_loop fuel []
          expectT Token.RBrace
          pure (Declaration.Function ⟨return_type, d.1, params, body⟩)
      | _ => do
        let init ← parse_opt_init fuel
        global_tail_loop fuel base_type
        expectT Token.Semicolon
        pure (Declaration.GlobalVar d.2 d.1 init)

/-- Declaration loop of parse_program (src/parser.rs). -/
def program_loop : Nat → List Declaration → PM (List Declaration)
  | 0, _ => noFuel
  | fuel + 1, acc => do
    let c ← curTok
    if c == Token.Eof then pure acc
    else do
      let d ← parse_declaration fuel
      program_loop fuel (acc ++ [d])

/-- parse_program (src/parser.rs). -/
def parse_program : Nat → PM Program
  | 0 => noFuel
  | fuel + 1 => do
    let ds ← program_loop fuel []
    pure ⟨ds⟩

end

/-- Parser::new (src/parser.rs): tokenize the input and start at position 0
with an empty typedef-name set; `none` is the lexer panic. -/
def parser_new (input : String) : Option PState :=
  (tokenize input.data).map (fun ts => ⟨ts, 0, []⟩)

/-- Run parse_program on an input string with the given fuel: `none` covers
both the lexer panic and fuel exhaustion; every claim below exhibits a
`some` result, which shows the fuel was sufficient. -/
def run_program (input : String) (fuel : Nat) : Option (Except String Program × PState) :=
  match parser_new input with
  | none => none
  | some s => parse_program fuel s

/-- Run parse_expr on an input string (with an optional pre-seeded
typedef-name set, empty for a fresh parser). -/
def run_expr (input : String) (tds : List String) (fuel : Nat) :
    Option (Except String Expr × PState) :=
  match parser_new input with
  | none => none
  | some s => parse_expr fuel { s with typedef_names := tds }

/-- Run parse_statement on an input string with a pre-seeded typedef-name
set. -/
def run_statement (input : String) (tds : List String) (fuel : Nat) :
    Option (Except String Stmt × PState) :=
  match parser_new input with
  | none => none
  | some s => parse_statement fuel { s with typedef_names := tds }

/-- Run parse_declarator on an input string against a base type. -/
def run_declarator (input : String) (base : CType) (fuel : Nat) :
    Option (Except String (String × CType) × PState) :=
  match parser_new input with
  | none => none
  | some s => parse_declarator fuel base s

/-- Projection of a run to its Ok/Err outcome, dropping the final parser
state. -/
def outcome (r : Option (Except String α × PState)) : Option (Except String α) :=
  r.map Prod.fst

/-- Projection of a run to the final typedef-name set. -/
def final_tds (r : Option (Except String α × PState)) : Option (List String) :=
  r.map (fun p => p.2.typedef_names)

/-- The list of characters that start a recognized operator or punctuator in
next_token (src/lexer.rs): the guards of its dispatch chain. -/
def recognized_punct_chars : List Char :=
  ['+', '-', '*', '/', '%', '(', ')', lbraceChar, rbraceChar, '[', ']',
   ';', ',', '.', '?', ':', '~', '&', '|', '^', '!', '=', '<', '>',
   dquote, squote]

/-- A parser computation leaves the typedef-name set unchanged, on both the
Ok and the Err path. -/
def PresTD (m : PM α) : Prop :=
  ∀ s r s', m s = some (r, s') → s'.typedef_names = s.typedef_names

/-- A parser computation can only grow the typedef-name set. -/
def MonoTD (m : PM α) : Prop :=
  ∀ s r s', m s = some (r, s') → s.typedef_names ⊆ s'.typedef_names

/-- Typedef-set facts about every function of the recursive-descent block at
a given fuel: all of them are monotone in the typedef-name set, and all of
them except parse_typedef (and the functions that reach it: its tail loop,
parse_declaration, the program loop) leave the set exactly unchanged. -/
structure TDFacts (fuel : Nat) : Prop where
  skip_storage_p : PresTD (skip_storage fuel)
  type_spec_loop_p : ∀ f, PresTD (type_spec_loop fuel f)
  star_loop_p : ∀ t, PresTD (star_loop fuel t)
  parse_type_p : PresTD (parse_type fuel)
  skip_brace_block_p : PresTD (skip_brace_block fuel)
  brace_loop_p : ∀ d, PresTD (brace_loop fuel d)
  fields_loop_p : ∀ a, PresTD (fields_loop fuel a)
  parse_struct_def_p : PresTD (parse_struct_def fuel)
  parse_union_def_p : PresTD (parse_union_def fuel)
  variants_loop_p : ∀ a, PresTD (variants_loop fuel a)
  parse_enum_def_p : PresTD (parse_enum_def fuel)
  typedef_tail_loop_m : ∀ b, MonoTD (typedef_tail_loop fuel b)
  parse_typedef_m : MonoTD (parse_typedef fuel)
  params_loop_p : ∀ a, PresTD (params_loop fuel a)
  parse_declarator_suffix_p : ∀ b, PresTD (parse_declarator_suffix fuel b)
  parse_declarator_p : ∀ b, PresTD (parse_declarator fuel b)
  str_concat_loop_p : ∀ a, PresTD (str_concat_loop fuel a)
  call_args_loop_p : ∀ a, PresTD (call_args_loop fuel a)
  parse_primary_p : PresTD (parse_primary fuel)
  parse_unary_p : PresTD (parse_unary fuel)
  postfix_loop_p : ∀ e, PresTD (postfix_loop fuel e)
  parse_postfix_p : PresTD ( parse_postfix fuel)
  mul_loop_p : ∀ e, PresTD (mul_loop fuel e)
  parse_multiplicative_p : PresTD (parse_multiplicative fuel)
  add_loop_p : ∀ e, PresTD (add_loop fuel e)
  parse_additive_p : PresTD (parse_additive fuel)
  shift_loop_p : ∀ e, PresTD (shift_loop fuel e)
  parse_shift_p : PresTD (parse_shift fuel)
  cmp_loop_p : ∀ e, PresTD (cmp_loop fuel e)
  parse_comparison_p : PresTD (parse_comparison fuel)
  band_loop_p : ∀ e, PresTD (band_loop fuel e)
  parse_bitwise_and_p : PresTD (parse_bitwise_and fuel)
  bxor_loop_p : ∀ e, PresTD (bxor_loop fuel e)
  parse_bitwise_xor_p : PresTD (parse_bitwise_xor fuel)
  bor_loop_p : ∀ e, PresTD (bor_loop fuel e)
  parse_bitwise_or_p : PresTD (parse_bitwise_or fuel)
  logical_loop_p : ∀ e, PresTD (logical_loop fuel e)
  parse_logical_p : PresTD (parse_logical fuel)
  parse_ternary_p : PresTD (parse_ternary fuel)
  parse_assignment_p : PresTD (parse_assignment fuel)
  parse_expr_p : PresTD (parse_expr fuel)
  parse_opt_init_p : PresTD (parse_opt_init fuel)
  decl_list_loop_p : ∀ b a, PresTD (decl_list_loop fuel b a)
  stmt_list_loop_p : ∀ a, PresTD (stmt_list_loop fuel a)
  block_or_stmt_p : PresTD (block_or_stmt fuel)
  expr_statement_p : PresTD (expr_statement fuel)
  parse_statement_p : PresTD (parse_statement fuel)
  global_tail_loop_p : ∀ b, PresTD (global_tail_loop fuel b)
  parse_declaration_m : MonoTD (parse_declaration fuel)
  program_loop_m : ∀ a, MonoTD (program_loop fuel a)
  parse_program_m : MonoTD (parse_program fuel)

/-! Claim theorems. -/

/-- C1: evaluation of the declarator algorithm at the claim's own example.
Parsing the declarator of `int (*f)(int)` yields
Function(return: Pointer(Int), params: [Int]) — exactly what `int *f(int)`
yields — and not the Pointer(Function(Int, [Int])) the claim requires: the
postfix suffix is applied to the parenthesized sub-declarator's result type
instead of being bound inside it, so the classic declarator inversion is
lost.  At the whole-program level the declaration is then taken for a
function prototype returning Pointer(Int). -/
theorem claim_C1_declarator_inversion_lost :
    outcome (run_declarator ("(*f)(int);") CType.Int 100)
      = some (Except.ok ("f", CType.Function (CType.Pointer CType.Int) [CType.Int]))
    ∧ outcome (run_declarator ("*f(int);") CType.Int 100)
      = some (Except.ok ("f", CType.Function (CType.Pointer CType.Int) [CType.Int]))
    ∧ outcome (run_program ("int (*f)(int);") 100)
      = some (Except.ok ⟨[Declaration.Function
          ⟨CType.Pointer CType.Int, "f", [⟨CType.Int, ""⟩], []⟩]⟩)
    ∧ CType.Function (CType.Pointer CType.Int) [CType.Int]
      ≠ CType.Pointer (CType.Function CType.Int [CType.Int]) := by
  refine ⟨rfl, rfl, rfl, ?_⟩
  simp

/-- C2: parsing `typedef int T; T x;` succeeds, the declaration of x having
type Typedef("T"), while `T x;` alone fails with the "Expected type" error
carrying the unconsumed identifier. -/
theorem claim_C2_typedef_registration :
    outcome (run_program ("typedef int T; T x;") 100)
      = some (Except.ok ⟨[ Declaration.Typedef ⟨"T", CType.Int⟩,
          Declaration.GlobalVar ( CType.Typedef "T") "x" none]⟩)
    ∧ outcome (run_program ("T x;") 100)
      = some (Except.error ("Expected type, got Identifier(\"T\")")) := by
  exact ⟨rfl, rfl⟩

/-- C8: `1 + 2 * 3` parses with multiplication bound tighter than addition,
and `a = b = c` parses right-associatively. -/
theorem claim_C8_precedence_associativity :
    outcome (run_expr ("1 + 2 * 3") [] 100)
      = some (Except.ok (Expr.Binary BinaryOp.Add (Expr.IntLiteral 1)
          (Expr.Binary BinaryOp.Mul (Expr.IntLiteral 2) (Expr.IntLiteral 3))))
    ∧ outcome (run_expr ("a = b = c") [] 100)
      = some (Except.ok (Expr.Assignment (Expr.Identifier "a")
          (Expr.Assignment (Expr.Identifier "b") (Expr.Identifier "c")))) := by
  exact ⟨rfl, rfl⟩

/-! Combinator lemmas for the typedef-set facts. -/

/-- Fuel exhaustion trivially preserves the typedef-name set. -/
theorem pres_noFuel : PresTD (noFuel : PM α) := by
  intro s r s' h
  simp [noFuel] at h

/-- pure preserves the typedef-name set. -/
theorem pres_pure (a : α) : PresTD (pure a : PM α) := by
  intro s r s' h
  simp only [pure, PM.pure, Option.some.injEq, Prod.mk.injEq] at h
  rw [← h.2]

/-- bind preserves the typedef-name set when both parts do, on the Ok and
the Err path alike. -/
theorem pres_bind {m : PM α} {k : α → PM β} (h1 : PresTD m)
    (h2 : ∀ a, PresTD (k a)) : PresTD (m >>= k) := by
  intro s r s' h
  simp only [Bind.bind, PM.bind] at h
  match hm : m s with
  | none => rw [hm] at h; exact absurd h (by simp)
  | some (Except.error e, s1) =>
    rw [hm] at h
    simp only [Option.some.injEq, Prod.mk.injEq] at h
    rw [← h.2]
    exact h1 s _ s1 hm
  | some (Except.ok a, s1) =>
    rw [hm] at h
    exact (h2 a s1 r s' h).trans (h1 s _ s1 hm)

/-- Returning an error preserves the typedef-name set. -/
theorem pres_err (e : String) : PresTD (errP e : PM α) := by
  intro s r s' h
  simp only [errP, Option.some.injEq, Prod.mk.injEq] at h
  rw [← h.2]

/-- Reading the current token preserves the typedef-name set. -/
theorem pres_curTok : PresTD curTok := by
  intro s r s' h
  simp only [curTok, Option.some.injEq, Prod.mk.injEq] at h
  rw [← h.2]

/-- Advancing the cursor preserves the typedef-name set. -/
theorem pres_advanceP : PresTD advanceP := by
  intro s r s' h
  simp only [advanceP, Option.some.injEq, Prod.mk.injEq] at h
  rw [← h.2]
  simp only [advance_state]
  split <;> rfl

/-- Reading the typedef-name set preserves it. -/
theorem pres_getTypedefs : PresTD getTypedefs := by
  intro s r s' h
  simp only [getTypedefs, Option.some.injEq, Prod.mk.injEq] at h
  rw [← h.2]

/-- The cast-position test preserves the typedef-name set. -/
theorem pres_is_type_start : PresTD is_type_start := by
  intro s r s' h
  simp only [is_type_start, Option.some.injEq, Prod.mk.injEq] at h
  rw [← h.2]

/-- expect preserves the typedef-name set on both its paths. -/
theorem pres_expectT (t : Token) : PresTD (expectT t) := by
  intro s r s' h
  simp only [expectT] at h
  split at h <;>
    (simp only [Option.some.injEq, Prod.mk.injEq] at h
     rw [← h.2])
  simp only [advance_state]
  split <;> rfl

/-- Exact preservation is in particular monotonicity. -/
theorem mono_of_pres {m : PM α} (h : PresTD m) : MonoTD m := by
  intro s r s' hm
  rw [h s r s' hm]
  exact fun n hn => hn

/-- bind of two monotone computations is monotone. -/
theorem mono_bind {m : PM α} {k : α → PM β} (h1 : MonoTD m)
    (h2 : ∀ a, MonoTD (k a)) : MonoTD (m >>= k) := by
  intro s r s' h
  simp only [Bind.bind, PM.bind] at h
  match hm : m s with
  | none => rw [hm] at h; exact absurd h (by simp)
  | some (Except.error e, s1) =>
    rw [hm] at h
    simp only [Option.some.injEq, Prod.mk.injEq] at h
    rw [← h.2]
    exact h1 s _ s1 hm
  | some (Except.ok a, s1) =>
    rw [hm] at h
    exact (h1 s _ s1 hm).trans (h2 a s1 r s' h)

/-- Inserting a typedef name only grows the set. -/
theorem mono_insertTypedef (n : String) : MonoTD (insertTypedef n) := by
  intro s r s' h
  simp only [insertTypedef, Option.some.injEq, Prod.mk.injEq] at h
  rw [← h.2]
  intro a ha
  simp only [insert_name]
  split
  · exact ha
  · exact List.mem_cons_of_mem _ ha

set_option maxHeartbeats 12800000 in
/-- Every recursive-descent function preserves or monotonically grows the
typedef-name set, at every fuel, on Ok and Err paths alike. -/
theorem tdfacts : ∀ fuel, TDFacts fuel := by
  intro fuel
  induction fuel with
  | zero =>
    constructor <;> (intros; first | exact pres_noFuel | exact mono_of_pres pres_noFuel)
  | succ n ih =>
    constructor
    case skip_storage_p =>
      simp only [skip_storage]
      apply pres_bind pres_curTok
      intro c
      split
      all_goals first
        | exact pres_bind pres_advanceP fun _ => ih.skip_storage_p
        | exact pres_pure _
    case type_spec_loop_p =>
      intro f
      simp only [type_spec_loop]
      apply pres_bind pres_curTok
      intro c
      split
      all_goals first
        | exact pres_bind pres_advanceP fun _ => ih.type_spec_loop_p _
        | exact pres_pure _
        | (apply pres_bind pres_advanceP
           intro _
           apply pres_bind pres_curTok
           intro c2
           split
           all_goals first
             | exact pres_bind pres_advanceP fun _ => ih.type_spec_loop_p _
             | exact pres_bind ih.skip_brace_block_p fun _ => ih.type_spec_loop_p _
             | exact pres_err _)
        | (apply pres_bind pres_getTypedefs
           intro tds
           split
           all_goals first
             | exact pres_bind pres_advanceP fun _ => ih.type_spec_loop_p _
             | exact pres_pure _)
    case star_loop_p =>
      intro t
      simp only [star_loop]
      apply pres_bind pres_curTok
      intro c
      split
      · exact pres_bind pres_advanceP fun _ => ih.star_loop_p _
      · exact pres_pure _
    case parse_type_p =>
      simp only [parse_type]
      apply pres_bind ih.skip_storage_p
      intro _
      apply pres_bind (ih.type_spec_loop_p _)
      intro f
      split
      · exact pres_bind (ih.star_loop_p _) fun _ => pres_pure _
      · exact pres_bind pres_curTok fun c => pres_err _
    case skip_brace_block_p =>
      simp only [skip_brace_block]
      exact pres_bind (pres_expectT _) fun _ => ih.brace_loop_p _
    case brace_loop_p =>
      intro d
      simp only [brace_loop]
      split
      · exact pres_pure _
      · apply pres_bind pres_curTok
        intro c
        split
        all_goals first
          | exact pres_bind pres_advanceP fun _ => ih.brace_loop_p _
          | exact pres_pure _
    case fields_loop_p =>
      intro a
      simp only [fields_loop]
      apply pres_bind pres_curTok
      intro c
      split
      · exact pres_pure _
      · apply pres_bind ih.parse_type_p
        intro b
        apply pres_bind (ih.parse_declarator_p _)
        intro d
        exact pres_bind (pres_expectT _) fun _ => ih.fields_loop_p _
    case parse_struct_def_p =>
      simp only [parse_struct_def]
      apply pres_bind (pres_expectT _)
      intro _
      apply pres_bind pres_curTok
      intro c
      split
      · apply pres_bind pres_advanceP
        intro _
        apply pres_bind (pres_expectT _)
        intro _
        apply pres_bind (ih.fields_loop_p _)
        intro fs
        exact pres_bind (pres_expectT _) fun _ => pres_pure _
      · exact pres_err _
    case parse_union_def_p =>
      simp only [parse_union_def]
      apply pres_bind (pres_expectT _)
      intro _
      apply pres_bind pres_curTok
      intro c
      split
      · apply pres_bind pres_advanceP
        intro _
        apply pres_bind (pres_expectT _)
        intro _
        apply pres_bind (ih.fields_loop_p _)
        intro fs
        exact pres_bind (pres_expectT _) fun _ => pres_pure _
      · exact pres_err _
    case variants_loop_p =>
      intro a
      simp only [variants_loop]
      apply pres_bind pres_curTok
      intro c
      split
      · exact pres_pure _
      · split
        · apply pres_bind pres_advanceP
          intro _
          apply pres_bind pres_curTok
          intro c2
          refine pres_bind ?_ fun value => ?_
          · split
            · apply pres_bind pres_advanceP
              intro _
              apply pres_bind pres_curTok
              intro c3
              split
              · exact pres_bind pres_advanceP fun _ => pres_pure _
              · exact pres_err _
            · exact pres_pure _
          · apply pres_bind pres_curTok
            intro c4
            split
            · exact pres_bind pres_advanceP fun _ => ih.variants_loop_p _
            · exact pres_pure _
        · exact pres_err _
    case parse_enum_def_p =>
      simp only [parse_enum_def]
      apply pres_bind (pres_expectT _)
      intro _
      apply pres_bind pres_curTok
      intro c
      refine pres_bind ?_ fun name => ?_
      · split
        · exact pres_bind pres_advanceP fun _ => pres_pure _
        · exact pres_pure _
      · apply pres_bind (pres_expectT _)
        intro _
        apply pres_bind (ih.variants_loop_p _)
        intro vs
        exact pres_bind (pres_expectT _) fun _ => pres_pure _
    case typedef_tail_loop_m =>
      intro b
      simp only [typedef_tail_loop]
      apply mono_bind (mono_of_pres pres_curTok)
      intro c
      split
      · apply mono_bind (mono_of_pres pres_advanceP)
        intro _
        apply mono_bind (mono_of_pres (ih.parse_declarator_p _))
        intro d
        exact mono_bind (mono_insertTypedef _) fun _ => ih.typedef_tail_loop_m _
      · exact mono_of_pres (pres_pure _)
    case parse_typedef_m =>
      simp only [parse_typedef]
      apply mono_bind (mono_of_pres (pres_expectT _))
      intro _
      apply mono_bind (mono_of_pres pres_curTok)
      intro c
      split
      all_goals first
        | (apply mono_bind (mono_of_pres pres_advanceP)
           intro _
           apply mono_bind (mono_of_pres pres_curTok)
           intro c2
           refine mono_bind ?_ fun tag => ?_
           · split
             · exact mono_of_pres (pres_bind pres_advanceP fun _ => pres_pure _)
             · exact mono_of_pres (pres_pure _)
           · apply mono_bind (mono_of_pres pres_curTok)
             intro c3
             refine mono_bind ?_ fun _ => ?_
             · split
               · exact mono_of_pres ih.skip_brace_block_p
               · exact mono_of_pres (pres_pure _)
             · apply mono_bind (mono_of_pres (ih.parse_declarator_p _))
               intro d
               apply mono_bind (mono_of_pres (pres_expectT _))
               intro _
               exact mono_bind (mono_insertTypedef _) fun _ => mono_of_pres (pres_pure _))
        | (apply mono_bind (mono_of_pres ih.parse_type_p)
           intro bt
           apply mono_bind (mono_of_pres (ih.parse_declarator_p _))
           intro d
           apply mono_bind (mono_insertTypedef _)
           intro _
           apply mono_bind (ih.typedef_tail_loop_m _)
           intro _
           exact mono_bind (mono_of_pres (pres_expectT _)) fun _ => mono_of_pres (pres_pure _))
    case params_loop_p =>
      intro a
      simp only [params_loop]
      apply pres_bind pres_curTok
      intro c
      split
      · exact pres_bind pres_advanceP fun _ => pres_pure _
      · apply pres_bind ih.parse_type_p
        intro pty
        apply pres_bind pres_curTok
        intro c2
        refine pres_bind ?_ fun _ => ?_
        · split
          · exact pres_advanceP
          · exact pres_pure _
        · apply pres_bind pres_curTok
          intro c3
          split
          · exact pres_bind pres_advanceP fun _ => ih.params_loop_p _
          · exact pres_pure _
    case parse_declarator_suffix_p =>
      intro b
      simp only [parse_declarator_suffix]
      apply pres_bind pres_curTok
      intro c
      split
      · apply pres_bind pres_advanceP
        intro _
        apply pres_bind pres_curTok
        intro c2
        refine pres_bind ?_ fun size => ?_
        · split
          · exact pres_bind pres_advanceP fun _ => pres_pure _
          · exact pres_pure _
        · exact pres_bind (pres_expectT _) fun _ => ih.parse_declarator_suffix_p _
      · apply pres_bind pres_advanceP
        intro _
        apply pres_bind pres_curTok
        intro c2
        refine pres_bind ?_ fun params => ?_
        · split
          · exact pres_pure _
          · exact ih.params_loop_p _
        · exact pres_bind (pres_expectT _) fun _ => ih.parse_declarator_suffix_p _
      · exact pres_pure _
    case parse_declarator_p =>
      intro b
      simp only [parse_declarator]
      apply pres_bind (ih.star_loop_p _)
      intro ty
      apply pres_bind pres_curTok
      intro c
      split
      · apply pres_bind pres_advanceP
        intro _
        exact pres_bind (ih.parse_declarator_suffix_p _) fun _ => pres_pure _
      · apply pres_bind pres_advanceP
        intro _
        apply pres_bind (ih.parse_declarator_p _)
        intro d
        apply pres_bind (pres_expectT _)
        intro _
        exact pres_bind (ih.parse_declarator_suffix_p _) fun _ => pres_pure _
      · exact pres_err _
    case str_concat_loop_p =>
      intro a
      simp only [str_concat_loop]
      apply pres_bind pres_curTok
      intro c
      split
      · exact pres_bind pres_advanceP fun _ => ih.str_concat_loop_p _
      · exact pres_pure _
    case call_args_loop_p =>
      intro a
      simp only [call_args_loop]
      apply pres_bind pres_curTok
      intro c
      split
      · apply pres_bind pres_advanceP
        intro _
        exact pres_bind ih.parse_expr_p fun _ => ih.call_args_loop_p _
      · exact pres_pure _
    case parse_primary_p =>
      simp only [parse_primary]
      apply pres_bind pres_curTok
      intro c
      split
      all_goals first
        | exact pres_bind pres_advanceP fun _ => pres_pure _
        | (apply pres_bind pres_advanceP
           intro _
           exact pres_bind (ih.str_concat_loop_p _) fun _ => pres_pure _)
        | (apply pres_bind pres_advanceP
           intro _
           apply pres_bind pres_curTok
           intro c2
           split
           · apply pres_bind pres_advanceP
             intro _
             apply pres_bind pres_curTok
             intro c3
             refine pres_bind ?_ fun args => ?_
             · split
               · exact pres_pure _
               · exact pres_bind ih.parse_expr_p fun _ => ih.call_args_loop_p _
             · exact pres_bind (pres_expectT _) fun _ => pres_pure _
           · exact pres_pure _)
        | (apply pres_bind pres_advanceP
           intro _
           apply pres_bind pres_curTok
           intro c2
           split
           · apply pres_bind ih.skip_brace_block_p
             intro _
             exact pres_bind (pres_expectT _) fun _ => pres_pure _
           · apply pres_bind pres_is_type_start
             intro isT
             split
             · apply pres_bind ih.parse_type_p
               intro typ
               apply pres_bind (pres_expectT _)
               intro _
               apply pres_bind pres_curTok
               intro c3
               split
               · exact pres_bind ih.skip_brace_block_p fun _ => pres_pure _
               · exact pres_bind ih.parse_unary_p fun _ => pres_pure _
             · apply pres_bind ih.parse_expr_p
               intro e
               exact pres_bind (pres_expectT _) fun _ => pres_pure _)
        | (apply pres_bind pres_advanceP
           intro _
           apply pres_bind pres_curTok
           intro c2
           split
           · apply pres_bind pres_advanceP
             intro _
             apply pres_bind pres_is_type_start
             intro isT
             split
             · apply pres_bind ih.parse_type_p
               intro typ
               exact pres_bind (pres_expectT _) fun _ => pres_pure _
             · apply pres_bind ih.parse_expr_p
               intro _
               exact pres_bind (pres_expectT _) fun _ => pres_pure _
           · exact pres_bind ih.parse_unary_p fun _ => pres_pure _)
        | exact pres_err _
    case parse_unary_p =>
      simp only [parse_unary]
      apply pres_bind pres_curTok
      intro c
      split
      all_goals first
        | exact pres_bind pres_advanceP fun _ =>
            pres_bind ih.parse_unary_p fun _ => pres_pure _
        | exact ih.parse_postfix_p
    case postfix_loop_p =>
      intro e
      simp only [postfix_loop]
      apply pres_bind pres_curTok
      intro c
      split
      all_goals first
        | (apply pres_bind pres_advanceP
           intro _
           apply pres_bind ih.parse_expr_p
           intro idx
           exact pres_bind (pres_expectT _) fun _ => ih.postfix_loop_p _)
        | (apply pres_bind pres_advanceP
           intro _
           apply pres_bind pres_curTok
           intro c2
           split
           · exact pres_bind pres_advanceP fun _ => ih.postfix_loop_p _
           · exact pres_err _)
        | exact pres_bind pres_advanceP fun _ => ih.postfix_loop_p _
        | exact pres_pure _
    case parse_postfix_p =>
      simp only [ parse_postfix]
      exact pres_bind ih.parse_primary_p fun _ => ih.postfix_loop_p _
    case mul_loop_p =>
      intro e
      simp only [mul_loop]
      apply pres_bind pres_curTok
      intro c
      split
      · apply pres_bind pres_advanceP
        intro _
        exact pres_bind ih.parse_unary_p fun _ => ih.mul_loop_p _
      · exact pres_pure _
    case parse_multiplicative_p =>
      simp only [parse_multiplicative]
      exact pres_bind ih.parse_unary_p fun _ => ih.mul_loop_p _
    case add_loop_p =>
      intro e
      simp only [add_loop]
      apply pres_bind pres_curTok
      intro c
      split
      · apply pres_bind pres_advanceP
        intro _
        exact pres_bind ih.parse_multiplicative_p fun _ => ih.add_loop_p _
      · exact pres_pure _
    case parse_additive_p =>
      simp only [parse_additive]
      exact pres_bind ih.parse_multiplicative_p fun _ => ih.add_loop_p _
    case shift_loop_p =>
      intro e
      simp only [shift_loop]
      apply pres_bind pres_curTok
      intro c
      split
      · apply pres_bind pres_advanceP
        intro _
        exact pres_bind ih.parse_additive_p fun _ => ih.shift_loop_p _
      · exact pres_pure _
    case parse_shift_p =>
      simp only [parse_shift]
      exact pres_bind ih.parse_additive_p fun _ => ih.shift_loop_p _
    case cmp_loop_p =>
      intro e
      simp only [cmp_loop]
      apply pres_bind pres_curTok
      intro c
      split
      · apply pres_bind pres_advanceP
        intro _
        exact pres_bind ih.parse_shift_p fun _ => ih.cmp_loop_p _
      · exact pres_pure _
    case parse_comparison_p =>
      simp only [parse_comparison]
      exact pres_bind ih.parse_shift_p fun _ => ih.cmp_loop_p _
    case band_loop_p =>
      intro e
      simp only [band_loop]
      apply pres_bind pres_curTok
      intro c
      split
      · apply pres_bind pres_advanceP
        intro _
        exact pres_bind ih.parse_comparison_p fun _ => ih.band_loop_p _
      · exact pres_pure _
    case parse_bitwise_and_p =>
      simp only [parse_bitwise_and]
      exact pres_bind ih.parse_comparison_p fun _ => ih.band_loop_p _
    case bxor_loop_p =>
      intro e
      simp only [bxor_loop]
      apply pres_bind pres_curTok
      intro c
      split
      · apply pres_bind pres_advanceP
        intro _
        exact pres_bind ih.parse_bitwise_and_p fun _ => ih.bxor_loop_p _
      · exact pres_pure _
    case parse_bitwise_xor_p =>
      simp only [parse_bitwise_xor]
      exact pres_bind ih.parse_bitwise_and_p fun _ => ih.bxor_loop_p _
    case bor_loop_p =>
      intro e
      simp only [bor_loop]
      apply pres_bind pres_curTok
      intro c
      split
      · apply pres_bind pres_advanceP
        intro _
        exact pres_bind ih.parse_bitwise_xor_p fun _ => ih.bor_loop_p _
      · exact pres_pure _
    case parse_bitwise_or_p =>
      simp only [parse_bitwise_or]
      exact pres_bind ih.parse_bitwise_xor_p fun _ => ih.bor_loop_p _
    case logical_loop_p =>
      intro e
      simp only [logical_loop]
      apply pres_bind pres_curTok
      intro c
      split
      · apply pres_bind pres_advanceP
        intro _
        exact pres_bind ih.parse_bitwise_or_p fun _ => ih.logical_loop_p _
      · exact pres_pure _
    case parse_logical_p =>
      simp only [parse_logical]
      exact pres_bind ih.parse_bitwise_or_p fun _ => ih.logical_loop_p _
    case parse_ternary_p =>
      simp only [parse_ternary]
      apply pres_bind ih.parse_logical_p
      intro cond
      apply pres_bind pres_curTok
      intro c
      split
      · apply pres_bind pres_advanceP
        intro _
        apply pres_bind ih.parse_expr_p
        intro t
        apply pres_bind (pres_expectT _)
        intro _
        exact pres_bind ih.parse_ternary_p fun _ => pres_pure _
      · exact pres_pure _
    case parse_assignment_p =>
      simp only [parse_assignment]
      apply pres_bind ih.parse_ternary_p
      intro left
      apply pres_bind pres_curTok
      intro c
      split
      · exact pres_bind pres_advanceP fun _ =>
          pres_bind ih.parse_assignment_p fun _ => pres_pure _
      · split
        · exact pres_bind pres_advanceP fun _ =>
            pres_bind ih.parse_assignment_p fun _ => pres_pure _
        · exact pres_pure _
    case parse_expr_p =>
      simp only [parse_expr]
      exact ih.parse_assignment_p
    case parse_opt_init_p =>
      simp only [parse_opt_init]
      apply pres_bind pres_curTok
      intro c
      split
      · apply pres_bind pres_advanceP
        intro _
        apply pres_bind pres_curTok
        intro c2
        split
        · exact pres_bind ih.skip_brace_block_p fun _ => pres_pure _
        · exact pres_bind ih.parse_expr_p fun _ => pres_pure _
      · exact pres_pure _
    case decl_list_loop_p =>
      intro b a
      simp only [decl_list_loop]
      apply pres_bind pres_curTok
      intro c
      split
      · apply pres_bind pres_advanceP
        intro _
        apply pres_bind (ih.parse_declarator_p _)
        intro d
        exact pres_bind ih.parse_opt_init_p fun _ => ih.decl_list_loop_p _ _
      · exact pres_pure _
    case stmt_list_loop_p =>
      intro a
      simp only [stmt_list_loop]
      apply pres_bind pres_curTok
      intro c
      split
      · exact pres_pure _
      · exact pres_bind ih.parse_statement_p fun _ => ih.stmt_list_loop_p _
    case block_or_stmt_p =>
      simp only [block_or_stmt]
      apply pres_bind pres_curTok
      intro c
      split
      · apply pres_bind pres_advanceP
        intro _
        apply pres_bind (ih.stmt_list_loop_p _)
        intro sts
        exact pres_bind (pres_expectT _) fun _ => pres_pure _
      · exact pres_bind ih.parse_statement_p fun _ => pres_pure _
    case expr_statement_p =>
      simp only [expr_statement]
      exact pres_bind ih.parse_expr_p fun _ =>
        pres_bind (pres_expectT _) fun _ => pres_pure _
    case parse_statement_p =>
      simp only [parse_statement]
      apply pres_bind pres_curTok
      intro c
      split
      all_goals first
        | (apply pres_bind ih.parse_type_p
           intro bt
           apply pres_bind (ih.parse_declarator_p _)
           intro d
           apply pres_bind ih.parse_opt_init_p
           intro init
           apply pres_bind (ih.decl_list_loop_p _ _)
           intro decls
           apply pres_bind (pres_expectT _)
           intro _
           split
           · exact pres_pure _
           · exact pres_pure _)
        | (apply pres_bind pres_getTypedefs
           intro tds
           split
           · apply pres_bind ih.parse_type_p
             intro bt
             apply pres_bind (ih.parse_declarator_p _)
             intro d
             apply pres_bind ih.parse_opt_init_p
             intro init
             exact pres_bind (pres_expectT _) fun _ => pres_pure _
           · exact ih.expr_statement_p)
        | (apply pres_bind pres_advanceP
           intro _
           apply pres_bind pres_curTok
           intro c2
           refine pres_bind ?_ fun e => ?_
           · split
             · exact pres_bind ih.parse_expr_p fun _ => pres_pure _
             · exact pres_pure _
           · exact pres_bind (pres_expectT _) fun _ => pres_pure _)
        | (apply pres_bind pres_advanceP
           intro _
           apply pres_bind (pres_expectT _)
           intro _
           apply pres_bind ih.parse_expr_p
           intro cond
           apply pres_bind (pres_expectT _)
           intro _
           apply pres_bind ih.block_or_stmt_p
           intro tb
           apply pres_bind pres_curTok
           intro c2
           refine pres_bind ?_ fun eb => ?_
           · split
             · exact pres_bind pres_advanceP fun _ =>
                 pres_bind ih.block_or_stmt_p fun _ => pres_pure _
             · exact pres_pure _
           · exact pres_pure _)
        | (apply pres_bind pres_advanceP
           intro _
           apply pres_bind (pres_expectT _)
           intro _
           apply pres_bind ih.parse_expr_p
           intro cond
           apply pres_bind (pres_expectT _)
           intro _
           exact pres_bind ih.block_or_stmt_p fun _ => pres_pure _)
        | (apply pres_bind pres_advanceP
           intro _
           apply pres_bind (pres_expectT _)
           intro _
           apply pres_bind ih.parse_expr_p
           intro _
           apply pres_bind (pres_expectT _)
           intro _
           apply pres_bind pres_curTok
           intro c2
           split
           · exact pres_bind ih.skip_brace_block_p fun _ => pres_pure _
           · exact pres_bind ih.parse_statement_p fun _ => pres_pure _)
        | (apply pres_bind pres_advanceP
           intro _
           apply pres_bind ih.block_or_stmt_p
           intro body
           apply pres_bind (pres_expectT _)
           intro _
           apply pres_bind (pres_expectT _)
           intro _
           apply pres_bind ih.parse_expr_p
           intro cond
           apply pres_bind (pres_expectT _)
           intro _
           exact pres_bind (pres_expectT _) fun _ => pres_pure _)
        | (apply pres_bind pres_advanceP
           intro _
           apply pres_bind (pres_expectT _)
           intro _
           apply pres_bind pres_curTok
           intro c2
           refine pres_bind ?_ fun init => ?_
           · split
             · exact pres_bind pres_advanceP fun _ => pres_pure _
             · exact pres_bind ih.parse_statement_p fun _ => pres_pure _
           · apply pres_bind pres_curTok
             intro c3
             refine pres_bind ?_ fun cond => ?_
             · split
               · exact pres_bind pres_advanceP fun _ => pres_pure _
               · exact pres_bind ih.parse_expr_p fun _ =>
                   pres_bind (pres_expectT _) fun _ => pres_pure _
             · apply pres_bind pres_curTok
               intro c4
               refine pres_bind ?_ fun update => ?_
               · split
                 · exact pres_pure _
                 · exact pres_bind ih.parse_expr_p fun _ => pres_pure _
               · apply pres_bind (pres_expectT _)
                 intro _
                 exact pres_bind ih.block_or_stmt_p fun _ => pres_pure _)
        | exact pres_bind pres_advanceP fun _ =>
            pres_bind (pres_expectT _) fun _ => pres_pure _
        | (apply pres_bind pres_advanceP
           intro _
           apply pres_bind pres_curTok
           intro c2
           split
           · exact pres_bind pres_advanceP fun _ =>
               pres_bind (pres_expectT _) fun _ => pres_pure _
           · exact pres_err _)
        | (apply pres_bind pres_advanceP
           intro _
           apply pres_bind (ih.stmt_list_loop_p _)
           intro sts
           exact pres_bind (pres_expectT _) fun _ => pres_pure _)
        | exact ih.expr_statement_p
    case global_tail_loop_p =>
      intro b
      simp only [global_tail_loop]
      apply pres_bind pres_curTok
      intro c
      split
      · apply pres_bind pres_advanceP
        intro _
        apply pres_bind (ih.parse_declarator_p _)
        intro _
        apply pres_bind pres_curTok
        intro c2
        refine pres_bind ?_ fun _ => ?_
        · split
          · apply pres_bind pres_advanceP
            intro _
            apply pres_bind pres_curTok
            intro c3
            split
            · exact ih.skip_brace_block_p
            · exact pres_bind ih.parse_expr_p fun _ => pres_pure _
          · exact pres_pure _
        · exact ih.global_tail_loop_p _
      · exact pres_pure _
    case parse_declaration_m =>
      simp only [parse_declaration]
      apply mono_bind (mono_of_pres pres_curTok)
      intro c
      split
      all_goals first
        | (apply mono_of_pres
           apply pres_bind ih.parse_struct_def_p
           intro d
           apply pres_bind pres_curTok
           intro c2
           refine pres_bind ?_ fun _ => pres_pure _
           split
           · exact pres_advanceP
           · exact pres_pure _)
        | (apply mono_of_pres
           apply pres_bind ih.parse_union_def_p
           intro d
           apply pres_bind pres_curTok
           intro c2
           refine pres_bind ?_ fun _ => pres_pure _
           split
           · exact pres_advanceP
           · exact pres_pure _)
        | (apply mono_of_pres
           apply pres_bind ih.parse_enum_def_p
           intro d
           apply pres_bind pres_curTok
           intro c2
           refine pres_bind ?_ fun _ => pres_pure _
           split
           · exact pres_advanceP
           · exact pres_pure _)
        | exact mono_bind ih.parse_typedef_m fun d => mono_of_pres (pres_pure _)
        | (apply mono_bind (mono_of_pres ih.parse_type_p)
           intro bt
           apply mono_bind (mono_of_pres (ih.parse_declarator_p _))
           intro d
           apply mono_of_pres
           split
           · apply pres_bind pres_curTok
             intro c2
             split
             · exact pres_bind pres_advanceP fun _ => pres_pure _
             · apply pres_bind (pres_expectT _)
               intro _
               apply pres_bind (ih.stmt_list_loop_p _)
               intro body
               exact pres_bind (pres_expectT _) fun _ => pres_pure _
           · apply pres_bind ih.parse_opt_init_p
             intro init
             apply pres_bind (ih.global_tail_loop_p _)
             intro _
             exact pres_bind (pres_expectT _) fun _ => pres_pure _)
    case program_loop_m =>
      intro a
      simp only [program_loop]
      apply mono_bind (mono_of_pres pres_curTok)
      intro c
      split
      · exact mono_of_pres (pres_pure _)
      · exact mono_bind ih.parse_declaration_m fun d => ih.program_loop_m _
    case parse_program_m =>
      simp only [parse_program]
      exact mono_bind (ih.program_loop_m _) fun ds => mono_of_pres (pres_pure _)


/-- C5 counterexample: after `typedef int T;`, the statement `T a, b;` does
not produce comma-separated VarDecls folded into a Block — the typedef-led
declaration branch parses exactly one declarator and then demands the
semicolon, so the parse fails at the comma. -/
theorem claim_C5_cex_typedef_comma_list_fails :
    outcome (run_statement ("T a, b;") ["T"] 100)
      = some (Except.error ("Expected Semicolon, got Comma"))
    ∧ ∀ st : Stmt, outcome (run_statement ("T a, b;") ["T"] 100)
      ≠ some (Except.ok st) := by
  have h1 : outcome (run_statement ("T a, b;") ["T"] 100)
      = some (Except.error ("Expected Semicolon, got Comma")) := rfl
  refine ⟨h1, ?_⟩
  intro st h
  rw [h1] at h
  simp at h

/-- C5 as amended: the statement-position declaration branch triggers on the
fifteen tokens int, char, float, double, long, short, unsigned, signed,
const, volatile, static, extern, struct, union, enum (not on void, auto or
register, which fall into the expression branch and fail) or on a
typedef-name identifier; keyword-led declarations share one base type over
a comma-separated declarator list and fold into a Block exactly when more
than one declarator is given, while a typedef-name-led declaration parses a
single declarator. -/
theorem claim_C5_amended_statement_declarations :
    outcome (run_statement ("int a, *b;") [] 100)
      = some (Except.ok (Stmt.Block [Stmt.VarDecl CType.Int "a" none,
          Stmt.VarDecl (CType.Pointer CType.Int) "b" none]))
    ∧ outcome (run_statement ("int x;") [] 100)
      = some (Except.ok (Stmt.VarDecl CType.Int "x" none))
    ∧ outcome (run_statement ("static struct S p, q;") [] 100)
      = some (Except.ok (Stmt.Block [Stmt.VarDecl (CType.Struct "S") "p" none,
          Stmt.VarDecl (CType.Struct "S") "q" none]))
    ∧ outcome (run_statement ("T x;") ["T"] 100)
      = some (Except.ok (Stmt.VarDecl ( CType.Typedef "T") "x" none))
    ∧ outcome (run_statement ("void x;") [] 100)
      = some (Except.error ("Unexpected token in expression: Void"))
    ∧ outcome (run_statement ("auto int x;") [] 100)
      = some (Except.error ("Unexpected token in expression: Auto"))
    ∧ outcome (run_statement ("register int x;") [] 100)
      = some (Except.error ("Unexpected token in expression: Register")) :=
  ⟨rfl, rfl, rfl, rfl, rfl, rfl, rfl⟩

/-- C6 counterexample: parsing `int main( { return 0; }` fails with the
parse_type error "Expected type, got LBrace", which is not the expect-token
error naming RParen: no instantiation of the expect message with RParen as
the expected token equals it. -/
theorem claim_C6_cex_error_does_not_name_rparen :
    outcome (run_program ("int main( \x7b return 0; \x7d") 100)
      = some (Except.error ("Expected type, got LBrace"))
    ∧ ∀ a : Token, ("Expected type, got LBrace" : String)
      ≠ expect_err Token.RParen a := by
  refine ⟨rfl, ?_⟩
  intro a h
  have h2 := congrArg (fun s : String => s.data.take 10) h
  simp only [expect_err, reprToken, String.data_append,
    List.take_append_of_le_length] at h2
  simp at h2

/-- C6 as amended: the malformed input `int main( { return 0; }` does fail,
but with the expected-type error carrying the brace — the missing `)` is
discovered as a failed parameter-type parse inside the declarator suffix,
not as an expect-RParen check. -/
theorem claim_C6_amended_expected_type_error :
    outcome (run_program ("int main( \x7b return 0; \x7d") 100)
      = some (Except.error ("Expected type, got LBrace")) := rfl

/-- C7 counterexample: the character literal '\n' does not lex to
CharLiteral('\n'): read_char performs no escape decoding, so the backslash
itself becomes the character, and the remaining source is mis-tokenized. -/
theorem claim_C7_cex_char_escape_not_decoded :
    tokenize [squote, bslash, 'n', squote]
      = some [Token.CharLiteral bslash, Token.Identifier ("n"),
          Token.CharLiteral nulChar, Token.Eof]
    ∧ tokenize [squote, bslash, 'n', squote]
      ≠ some [Token.CharLiteral nl, Token.Eof] := by
  have h1 : tokenize [squote, bslash, 'n', squote]
      = some [Token.CharLiteral bslash, Token.Identifier ("n"),
          Token.CharLiteral nulChar, Token.Eof] := rfl
  refine ⟨h1, ?_⟩
  intro h
  rw [h1] at h
  simp only [Option.some.injEq, List.cons.injEq, Token.CharLiteral.injEq] at h
  exact absurd h.1 (by decide)

/-- C7 as amended: string-literal lexing decodes the escapes for n, t,
backslash and double quote into their characters and passes any other
escaped character through as itself, but character-literal lexing performs
no escape decoding at all — the character after the opening quote is taken
raw. -/
theorem claim_C7_amended_escapes :
    (∀ rest acc, read_string_aux (bslash :: 'n' :: rest) acc
      = read_string_aux rest (acc.push nl))
    ∧ (∀ rest acc, read_string_aux (bslash :: 't' :: rest) acc
      = read_string_aux rest (acc.push tab))
    ∧ (∀ rest acc, read_string_aux (bslash :: bslash :: rest) acc
      = read_string_aux rest (acc.push bslash))
    ∧ (∀ rest acc, read_string_aux (bslash :: dquote :: rest) acc
      = read_string_aux rest (acc.push dquote))
    ∧ (∀ e rest acc, e ≠ 'n' → e ≠ 't' → e ≠ bslash → e ≠ dquote →
        read_string_aux (bslash :: e :: rest) acc
          = read_string_aux rest (acc.push e))
    ∧ (∀ c rest, (read_char (c :: rest)).1 = Token.CharLiteral c)
    ∧ tokenize [dquote, bslash, 'n', dquote]
      = some [Token.StringLiteral (String.singleton nl), Token.Eof]
    ∧ tokenize [dquote, bslash, 'q', dquote]
      = some [Token.StringLiteral ("q"), Token.Eof]
    ∧ tokenize [squote, 'a', squote]
      = some [Token.CharLiteral 'a', Token.Eof]
    ∧ tokenize [squote, bslash, 'n', squote]
      = some [Token.CharLiteral bslash, Token.Identifier ("n"),
          Token.CharLiteral nulChar, Token.Eof] := by
  refine ⟨fun rest acc => rfl, fun rest acc => rfl, fun rest acc => rfl,
    fun rest acc => rfl, ?_, ?_, rfl, rfl, rfl, rfl⟩
  · intro e rest acc h1 h2 h3 h4
    have hbd : bslash ≠ dquote := by decide
    simp [read_string_aux, hbd, h1, h2, h3, h4]
  · intro c rest
    cases rest with
    | nil => rfl
    | cons r rest2 =>
      simp only [read_char]
      split <;> rfl

/-- C7 witness: the pass-through escape case applied at the escaped
character q, together with its side conditions. -/
theorem claim_C7_witness :
    read_string_aux (bslash :: 'q' :: []) ""
      = read_string_aux [] (("").push 'q') :=
  claim_C7_amended_escapes.2.2.2.2.1 'q' [] "" (by decide) (by decide)
    (by decide) (by decide)


/-- C3 counterexample: tokenizing `a @ b` does not equal tokenizing the
same input with the unrecognized character removed — the `@` makes
next_token return Eof, which stops tokenize, so `b` is never tokenized. -/
theorem claim_C3_cex_unrecognized_char_stops_tokenize :
    tokenize (("a @ b").data) = some [Token.Identifier ("a"), Token.Eof]
    ∧ tokenize (("a  b").data)
      = some [Token.Identifier ("a"), Token.Identifier ("b"), Token.Eof]
    ∧ tokenize (("a @ b").data) ≠ tokenize (("a  b").data) := by
  have h1 : tokenize (("a @ b").data)
      = some [Token.Identifier ("a"), Token.Eof] := rfl
  have h2 : tokenize (("a  b").data)
      = some [Token.Identifier ("a"), Token.Identifier ("b"), Token.Eof] := rfl
  refine ⟨h1, h2, ?_⟩
  rw [h1, h2]
  simp

/-- C3 as amended: an unrecognized character — one that is not whitespace,
does not start a number, an identifier or keyword, and starts no operator,
punctuator or literal — is consumed by next_token, which then returns the
end-of-input token; tokenize therefore pushes Eof and terminates, so no
token is produced for it and the remaining characters are discarded rather
than tokenized.  The character is restricted to ASCII, where the isDigit
and isAlpha guards coincide with Rust's is_numeric and is_alphabetic, so
that the hypotheses characterize exactly the characters the program treats
as unrecognized (the whitespace test itself is the exact Unicode one). -/
theorem claim_C3_amended_eof_on_unrecognized :
    ∀ c rest, c.toNat < 128 → ¬rust_is_whitespace c → ¬c.isDigit →
      ¬(c.isAlpha ∨ c = '_') → c ∉ recognized_punct_chars →
      next_token (c :: rest) = some (Token.Eof, rest)
      ∧ ∀ fuel, tokenize_aux (fuel + 1) (c :: rest) = some [Token.Eof] := by
  intro c rest hascii hws hd ha hp
  simp only [recognized_punct_chars, List.mem_cons, List.mem_singleton,
    not_or] at hp
  obtain ⟨p1, p2, p3, p4, p5, p6, p7, p8, p9, p10, p11, p12, p13, p14, p15,
    p16, p17, p18, p19, p20, p21, p22, p23, p24, p25, p26⟩ := hp
  have hnext : next_token (c :: rest) = some (Token.Eof, rest) := by
    simp [next_token, skip_whitespace, hws, hd, ha, p1, p2, p3, p4, p5, p6,
      p7, p8, p9, p10, p11, p12, p13, p14, p15, p16, p17, p18, p19, p20,
      p21, p22, p23, p24, p25, p26]
  refine ⟨hnext, ?_⟩
  intro fuel
  simp only [tokenize_aux, hnext]
  rfl

/-- C3 witness: the amended statement applied at the character @ with the
tail of `a @ b` after it. -/
theorem claim_C3_witness :
    next_token ('@' :: (" b").data) = some (Token.Eof, (" b").data)
    ∧ ∀ fuel, tokenize_aux (fuel + 1) ('@' :: (" b").data)
      = some [Token.Eof] :=
  claim_C3_amended_eof_on_unrecognized '@' ((" b").data) (by decide)
    (by decide) (by decide) (by decide) (by decide)

/-- C10: tokenization is not total — on twenty 9 digits, whose value
exceeds the i32 range, the parse inside read_number fails, so next_token
panics (none), and so do tokenize and Parser::new on that input. -/
theorem claim_C10_lexer_panics_on_overflow :
    parse_i32 (String.mk (List.replicate 20 '9')) = none
    ∧ read_number (List.replicate 20 '9') = none
    ∧ next_token (List.replicate 20 '9') = none
    ∧ (∀ fuel, tokenize_aux (fuel + 1) (List.replicate 20 '9') = none)
    ∧ tokenize (List.replicate 20 '9') = none
    ∧ parser_new (String.mk (List.replicate 20 '9')) = none := by
  have hn : next_token (List.replicate 20 '9') = none := rfl
  refine ⟨rfl, rfl, hn, ?_, rfl, rfl⟩
  intro fuel
  simp only [tokenize_aux, hn]

/-- Running a bind whose first computation succeeds continues with its
result and state. -/
theorem run_bind_ok {α β : Type} {m : PM α} {k : α → PM β} {s s1 : PState}
    {a : α} (h : m s = some (Except.ok a, s1)) : (m >>= k) s = k a s1 := by
  simp [Bind.bind, PM.bind, h]

/-- C4: parse_assignment desugars every compound assignment structurally.
Whenever the left-hand side has been parsed by parse_ternary and the
current token is one of the ten compound-assignment operators, the result
is Assignment(lhs, Binary(OP, lhs, rhs)) with rhs the recursively parsed
right-hand side — for every token stream, so in particular the AST equals
the one of the hand-written `a = a OP b` form, as the ten concrete pairs
show for each operator. -/
theorem claim_C4_compound_assignment_desugar :
    (∀ fuel s lhs s1 bop rhs s2,
      parse_ternary fuel s = some (Except.ok lhs, s1) →
      compound_bin_op (current_token s1) = some bop →
      parse_assignment fuel (advance_state s1) = some (Except.ok rhs, s2) →
      parse_assignment (fuel + 1) s
        = some (Except.ok (Expr.Assignment lhs (Expr.Binary bop lhs rhs)), s2))
    ∧ outcome (run_expr ("a += b") [] 100)
      = some (Except.ok (Expr.Assignment (Expr.Identifier ("a"))
          (Expr.Binary BinaryOp.Add (Expr.Identifier ("a"))
            (Expr.Identifier ("b")))))
    ∧ outcome (run_expr ("a += b") [] 100) = outcome (run_expr ("a = a + b") [] 100)
    ∧ outcome (run_expr ("a -= b") [] 100) = outcome (run_expr ("a = a - b") [] 100)
    ∧ outcome (run_expr ("a *= b") [] 100) = outcome (run_expr ("a = a * b") [] 100)
    ∧ outcome (run_expr ("a /= b") [] 100) = outcome (run_expr ("a = a / b") [] 100)
    ∧ outcome (run_expr ("a %= b") [] 100) = outcome (run_expr ("a = a % b") [] 100)
    ∧ outcome (run_expr ("a &= b") [] 100) = outcome (run_expr ("a = a & b") [] 100)
    ∧ outcome (run_expr ("a |= b") [] 100) = outcome (run_expr ("a = a | b") [] 100)
    ∧ outcome (run_expr ("a ^= b") [] 100) = outcome (run_expr ("a = a ^ b") [] 100)
    ∧ outcome (run_expr ("a <<= b") [] 100) = outcome (run_expr ("a = a << b") [] 100)
    ∧ outcome (run_expr ("a >>= b") [] 100) = outcome (run_expr ("a = a >> b") [] 100) := by
  refine ⟨?_, rfl, rfl, rfl, rfl, rfl, rfl, rfl, rfl, rfl, rfl, rfl⟩
  intro fuel s lhs s1 bop rhs s2 h1 h2 h3
  simp only [parse_assignment]
  rw [run_bind_ok h1]
  try simp only []
  rw [run_bind_ok (rfl : curTok s1 = some (Except.ok (current_token s1), s1))]
  try simp only []
  cases hc : current_token s1
  all_goals rw [hc] at h2
  all_goals first
    | (exfalso
       simp [compound_bin_op] at h2
       done)
    | (simp only [compound_bin_op, Option.some.injEq] at h2
       subst h2
       rw [if_neg (by decide)]
       simp only [compound_bin_op]
       rw [run_bind_ok (rfl : advanceP s1 = some (Except.ok (), advance_state s1))]
       try simp only []
       rw [run_bind_ok h3]
       rfl)

/-- C4 witness: the general desugaring statement applied to the token
stream of `x += y`. -/
theorem claim_C4_witness :
    parse_assignment 31
      ⟨[Token.Identifier ("x"), Token.PlusAssign, Token.Identifier ("y"),
        Token.Eof], 0, []⟩
      = some (Except.ok (Expr.Assignment (Expr.Identifier ("x"))
          (Expr.Binary BinaryOp.Add (Expr.Identifier ("x"))
            (Expr.Identifier ("y")))),
        ⟨[Token.Identifier ("x"), Token.PlusAssign, Token.Identifier ("y"),
          Token.Eof], 3, []⟩) :=
  claim_C4_compound_assignment_desugar.1 30
    ⟨[Token.Identifier ("x"), Token.PlusAssign, Token.Identifier ("y"),
      Token.Eof], 0, []⟩
    (Expr.Identifier ("x"))
    ⟨[Token.Identifier ("x"), Token.PlusAssign, Token.Identifier ("y"),
      Token.Eof], 1, []⟩
    BinaryOp.Add (Expr.Identifier ("y"))
    ⟨[Token.Identifier ("x"), Token.PlusAssign, Token.Identifier ("y"),
      Token.Eof], 3, []⟩
    rfl rfl rfl

/-- C9 counterexample: the typedef name is registered before the trailing
semicolon is checked, so the failed parse of `typedef int T x` (no
semicolon) aborts with an error yet leaves T in the typedef-name set — the
insertion did not come from a successfully parsed typedef declaration. -/
theorem claim_C9_cex_failed_typedef_still_registers :
    outcome (run_program ("typedef int T x") 100)
      = some (Except.error ("Expected Semicolon, got Identifier(\"x\")"))
    ∧ final_tds (run_program ("typedef int T x") 100) = some ["T"] :=
  ⟨rfl, rfl⟩

/-- C9 as amended: the typedef-name set starts empty in Parser::new, no
parser operation ever removes names (parse_program, parse_declaration and
parse_typedef are monotone on it, on success and failure paths alike), and
every other sub-parser — statements, expressions, types, declarators —
leaves it exactly unchanged, so names enter only through parse_typedef;
but parse_typedef's regular branch inserts the name before checking the
trailing semicolon, so a typedef declaration that fails afterwards has
still registered its name. -/
theorem claim_C9_amended_typedef_state :
    (∀ input s, parser_new input = some s → s.typedef_names = [])
    ∧ (∀ fuel s r s', parse_program fuel s = some (r, s') →
        s.typedef_names ⊆ s'.typedef_names)
    ∧ (∀ fuel s r s', parse_declaration fuel s = some (r, s') →
        s.typedef_names ⊆ s'.typedef_names)
    ∧ (∀ fuel s r s', parse_typedef fuel s = some (r, s') →
        s.typedef_names ⊆ s'.typedef_names)
    ∧ (∀ fuel s r s', parse_statement fuel s = some (r, s') →
        s'.typedef_names = s.typedef_names)
    ∧ (∀ fuel s r s', parse_expr fuel s = some (r, s') →
        s'.typedef_names = s.typedef_names)
    ∧ (∀ fuel s r s', parse_type fuel s = some (r, s') →
        s'.typedef_names = s.typedef_names)
    ∧ (∀ fuel b s r s', parse_declarator fuel b s = some (r, s') →
        s'.typedef_names = s.typedef_names) := by
  refine ⟨?_, fun fuel => (tdfacts fuel).parse_program_m,
    fun fuel => (tdfacts fuel).parse_declaration_m,
    fun fuel => (tdfacts fuel).parse_typedef_m,
    fun fuel => (tdfacts fuel).parse_statement_p,
    fun fuel => (tdfacts fuel).parse_expr_p,
    fun fuel => (tdfacts fuel).parse_type_p,
    fun fuel b => (tdfacts fuel).parse_declarator_p b⟩
  intro input s h
  cases ht : tokenize input.data with
  | none => rw [parser_new, ht] at h; simp at h
  | some ts =>
    rw [parser_new, ht] at h
    have h2 : (⟨ts, 0, []⟩ : PState) = s := Option.some.inj h
    rw [← h2]

/-- C9 witness: the amended statement applied at concrete inputs — a fresh
parser for the empty input, and all six parser operations run on small
token streams over the seeded set containing A. -/
theorem claim_C9_witness :
    ((⟨[Token.Eof], 0, []⟩ : PState).typedef_names = [])
    ∧ ((⟨[Token.Int, Token.Identifier ("x"), Token.Semicolon, Token.Eof],
        0, ["A"]⟩ : PState).typedef_names
      ⊆ (⟨[Token.Int, Token.Identifier ("x"), Token.Semicolon, Token.Eof],
        3, ["A"]⟩ : PState).typedef_names)
    ∧ ((⟨[Token.Typedef, Token.Int, Token.Identifier ("T"), Token.Semicolon,
        Token.Eof], 0, ["A"]⟩ : PState).typedef_names
      ⊆ (⟨[Token.Typedef, Token.Int, Token.Identifier ("T"), Token.Semicolon,
        Token.Eof], 4, ["T", "A"]⟩ : PState).typedef_names)
    ∧ ((⟨[Token.Int, Token.Identifier ("x"), Token.Semicolon, Token.Eof],
        3, ["A"]⟩ : PState).typedef_names
      = (⟨[Token.Int, Token.Identifier ("x"), Token.Semicolon, Token.Eof],
        0, ["A"]⟩ : PState).typedef_names) :=
  ⟨claim_C9_amended_typedef_state.1 "" ⟨[Token.Eof], 0, []⟩ rfl,
   claim_C9_amended_typedef_state.2.1 20
     ⟨[Token.Int, Token.Identifier ("x"), Token.Semicolon, Token.Eof], 0, ["A"]⟩
     (Except.ok ⟨[Declaration.GlobalVar CType.Int "x" none]⟩)
     ⟨[Token.Int, Token.Identifier ("x"), Token.Semicolon, Token.Eof], 3, ["A"]⟩
     rfl,
   claim_C9_amended_typedef_state.2.2.2.1 20
     ⟨[Token.Typedef, Token.Int, Token.Identifier ("T"), Token.Semicolon,
       Token.Eof], 0, ["A"]⟩
     (Except.ok ⟨"T", CType.Int⟩)
     ⟨[Token.Typedef, Token.Int, Token.Identifier ("T"), Token.Semicolon,
       Token.Eof], 4, ["T", "A"]⟩
     rfl,
   claim_C9_amended_typedef_state.2.2.2.2.1 20
     ⟨[Token.Int, Token.Identifier ("x"), Token.Semicolon, Token.Eof], 0, ["A"]⟩
     (Except.ok (Stmt.VarDecl CType.Int "x" none))
     ⟨[Token.Int, Token.Identifier ("x"), Token.Semicolon, Token.Eof], 3, ["A"]⟩
     rfl⟩

end CTR
